import Mathlib

/-!
Verification of the `mygeotab` API client (`mygeotab/api.py`).

The Python module is a thin JSON-RPC-over-HTTP client.  We give a shallow
embedding: JSON values (the decoded bodies the `requests`/`json`
collaborators hand back) are an inductive type, Python dicts are
insertion-ordered association lists with unique keys, the network is an
oracle script of decoded response bodies, and each client operation is a
function from client state and world to a result (`Except` for Python
exceptions), the updated state, and the updated world.  The world also
records every HTTP request issued and every `Credentials` construction, so
that claims about request traces and about in-place mutation versus
replacement can be stated.
-/

namespace MyGeotab

/-- Decoded JSON value, as produced by `r.json()` / consumed by `json.dumps`.
Numbers are modelled as integers (no claim involves floats). -/
inductive JsonValue where
  | null
  | bool (b : Bool)
  | num (n : Int)
  | str (s : String)
  | arr (xs : List JsonValue)
  | obj (kvs : List (String × JsonValue))
deriving Repr, Inhabited

/-- Python identity test against `None` (`x is None`). -/
def JsonValue.isNull : JsonValue → Bool
  | .null => true
  | _ => false

/-- Python equality of an arbitrary object against a string literal
(`x == "lit"`): true only when `x` is that very string; comparisons across
types yield `False` in Python. -/
def pyEqStr (v : JsonValue) (s : String) : Bool :=
  match v with
  | .str t => t = s
  | _ => false

/-- Python truthiness of a decoded JSON value (`if data:`). -/
def truthy : JsonValue → Bool
  | .null => false
  | .bool b => b
  | .num n => n ≠ 0
  | .str s => s ≠ ""
  | .arr xs => !xs.isEmpty
  | .obj kvs => !kvs.isEmpty

/-- Python dict with string keys, insertion ordered, keys unique by
construction. -/
abbrev Dict := List (String × JsonValue)

/-- Lookup of a key in a dict (`d[k]` when the key is present). -/
def dlookup : Dict → String → Option JsonValue
  | [], _ => none
  | (k', v) :: rest, k => if k' = k then some v else dlookup rest k

/-- Key membership test (`k in d` for a dict). -/
def dmem (d : Dict) (k : String) : Bool := (dlookup d k).isSome

/-- Assignment `d[k] = v`: overwrite in place if the key exists, else append. -/
def dset : Dict → String → JsonValue → Dict
  | [], k, v => [(k, v)]
  | (k', v') :: rest, k, v =>
      if k' = k then (k', v) :: rest else (k', v') :: dset rest k v

/-- Test whether `pat` is a prefix of `l` (character lists). -/
def listPrefixEq : List Char → List Char → Bool
  | [], _ => true
  | _ :: _, [] => false
  | p :: ps, h :: hs => p = h && listPrefixEq ps hs

/-- Test whether `pat` occurs as a contiguous subsequence of `l`. -/
def listHasSub (pat : List Char) : List Char → Bool
  | [] => listPrefixEq pat []
  | c :: rest => listPrefixEq pat (c :: rest) || listHasSub pat rest

/-- Substring test, Python's `needle in haystack` on strings. -/
def strContains (s pat : String) : Bool := listHasSub pat.data s.data

/-- Locate the first occurrence of `pat` in a character list, returning the
characters after it. -/
def findSubAfter (pat : List Char) : List Char → Option (List Char)
  | [] => if listPrefixEq pat [] then some [] else none
  | c :: rest =>
      if listPrefixEq pat (c :: rest) then some ((c :: rest).drop pat.length)
      else findSubAfter pat rest

/-- Python membership `k in data` for a decoded JSON value: key membership for
a mapping, element membership (`==` against each element) for a list,
substring membership for a string; a `TypeError` (modelled by `none`) for
non-iterable values. -/
def pyMem (k : String) : JsonValue → Option Bool
  | .obj kvs => some (dmem kvs k)
  | .arr xs => some (xs.any (pyEqStr · k))
  | .str s => some (strContains s k)
  | _ => none

/-- Python subscript `data[k]` with a string key: a lookup for a mapping
(`none` = `KeyError` when absent), a `TypeError` (also `none`) otherwise. -/
def pySubscr (v : JsonValue) (k : String) : Option JsonValue :=
  match v with
  | .obj kvs => dlookup kvs k
  | _ => none

/-- Behaviour of `urlparse(s)` restricted to what `_get_api_url` consumes:
`netloc if netloc else path`.  A string without a scheme separator has an
empty netloc and is returned whole (as its path); with `scheme://` present
the netloc is the chunk before the next `/`.  Query/fragment splitting and
the fallback to the path for a scheme-ful URL with an *empty* netloc are
elided (no server string in this development exercises them). -/
def urlparseBaseUrl (s : String) : String :=
  match findSubAfter [':', '/', '/'] s.data with
  | none => s
  | some after => ⟨after.takeWhile (fun c => c ≠ '/')⟩

/-- Credentials object.  Fields hold arbitrary Python objects (the
constructor never validates), so they are modelled as `JsonValue`; `None` is
`JsonValue.null`. -/
structure Credentials where
  username : JsonValue
  session_id : JsonValue
  database : JsonValue
  server : JsonValue
  password : JsonValue
deriving Repr

/-- Projection `Credentials.get_param`: `dict(userName=..., sessionId=...,
database=...)` — the password is never included. -/
def Credentials.get_param (c : Credentials) : JsonValue :=
  .obj [("userName", c.username), ("sessionId", c.session_id),
        ("database", c.database)]

/-- Python exceptions that the module can raise.  Only `MyGeotabException`
carries structure that the control flow inspects. -/
inductive PyErr where
  /-- MyGeotabException: `name`/`message`/`stack_trace` extracted from
  `full_error["errors"][0]`, plus the full error payload. -/
  | mgError (name message stackTrace full : JsonValue)
  /-- AuthenticationException(username, database, server). -/
  | authError (username database server : JsonValue)
  /-- Plain `Exception(msg)` raised by precondition checks. -/
  | genericError (msg : String)
  /-- KeyError / IndexError / TypeError / AttributeError from malformed data. -/
  | typeOrKeyError
  /-- Network-level failure (script exhausted): raised by the HTTP layer. -/
  | transport
deriving Repr

/-- Construction of `MyGeotabException(full_error)`: reads
`full_error["errors"][0]` and its `name`/`message`/`stackTrace` entries; any
missing key, wrong shape or empty list surfaces as a KeyError/TypeError
rather than a `MyGeotabException`. -/
def mkMyGeotabException (full : JsonValue) : PyErr :=
  match pySubscr full "errors" with
  | none => .typeOrKeyError
  | some errs =>
    match errs with
    | .arr (main :: _) =>
      match pySubscr main "name", pySubscr main "message",
            pySubscr main "stackTrace" with
      | some n, some m, some st => .mgError n m st full
      | _, _, _ => .typeOrKeyError
    | _ => .typeOrKeyError

/-- Record of one HTTP POST issued via `requests.post`: the URL, the TLS
verification flag, and the envelope content (`method` and `params`; the
constant `id: -1` and headers are left implicit). -/
structure Request where
  url : String
  verify : Bool
  method : String
  params : Dict
deriving Repr

/-- World outside the client: the oracle script of decoded response bodies
the server will answer with, the trace of requests issued so far, and the
trace of `Credentials.__init__` invocations (used to distinguish wholesale
replacement from in-place mutation). -/
structure World where
  script : List JsonValue
  requests : List Request
  newCredentials : List Credentials
deriving Repr

/-- Client state: the held credentials reference (`self.credentials`; `none`
models the reference being `None`, which the code tests for) and the
`_reauthorize_count` attribute. -/
structure ApiState where
  credentials : Option Credentials
  reauthorize_count : Nat
deriving Repr

namespace API

/-- Constructor `API.__init__(username, password, database, session_id,
server)`: rejects a `None` username, then rejects password and session id
both `None`, then installs `Credentials(username, session_id, database,
server, password)`.  The `_reauthorize_count` class attribute starts at 0.
The freshly constructed `Credentials` is logged in the world. -/
def init (username password database session_id server : JsonValue)
    (w : World) : Except PyErr ApiState × World :=
  if username.isNull then
    (.error (.genericError "username cannot be None"), w)
  else if password.isNull && session_id.isNull then
    (.error (.genericError "password and session_id must not both be None"), w)
  else
    let c : Credentials := ⟨username, session_id, database, server, password⟩
    (.ok ⟨some c, 0⟩, { w with newCredentials := w.newCredentials ++ [c] })

/-- URL built by `_get_api_url` from the server string:
`'https://' + base_url + '/apiv1'`. -/
def apiUrl (server : String) : String :=
  "https://" ++ urlparseBaseUrl server ++ "/apiv1"

/-- Flag `is_live = not any(s in url for s in ['127.0.0.1', 'localhost'])`
computed by `_query` and passed to `requests.post` as `verify`. -/
def isLiveUrl (url : String) : Bool :=
  !(strContains url "127.0.0.1" || strContains url "localhost")

/-- Method `_get_api_url`: defaults a falsy `self.credentials.server` to
`my.geotab.com` by writing the field in place, then builds
`https://<netloc-or-path>/apiv1` via `urlparse`.  The stray
`base_url.replace('/', '')` in the source discards its result and is a
no-op.  A `None` credentials reference or a truthy non-string server raises
(AttributeError / TypeError from `urlparse`). -/
def get_api_url (st : ApiState) : Except PyErr String × ApiState :=
  match st.credentials with
  | none => (.error .typeOrKeyError, st)
  | some c =>
    let c := if truthy c.server then c
             else { c with server := JsonValue.str "my.geotab.com" }
    let st := { st with credentials := some c }
    match c.server with
    | .str s => (.ok (apiUrl s), st)
    | _ => (.error .typeOrKeyError, st)

/-- Interpretation of the decoded response body, lines 79–85 of `_query`:
falsy body → `None`; `'error' in data` → raise
`MyGeotabException(data['error'])`; `'result' in data` → `data['result']`;
otherwise the whole body.  Python membership and subscripting on non-mapping
bodies raise `TypeError` as modelled by `pyMem`/`pySubscr`. -/
def interpretBody (data : JsonValue) : Except PyErr JsonValue :=
  if truthy data then
    match pyMem "error" data with
    | none => .error .typeOrKeyError
    | some true =>
      match pySubscr data "error" with
      | some fe => .error (mkMyGeotabException fe)
      | none => .error .typeOrKeyError
    | some false =>
      match pyMem "result" data with
      | none => .error .typeOrKeyError
      | some true =>
        match pySubscr data "result" with
        | some r => .ok r
        | none => .error .typeOrKeyError
      | some false => .ok data
  else .ok .null

/-- Method `_query(method, parameters)`: builds the envelope, computes
`is_live = not any(s in url for s in ['127.0.0.1', 'localhost'])`, POSTs
with `verify=is_live` (consuming the next scripted response body), then
interprets the decoded body: falsy body → `None`; `'error' in data` →
raise `MyGeotabException(data['error'])`; `'result' in data` → return
`data['result']`; otherwise return `data` whole. -/
def query (method : String) (parameters : Dict) (st : ApiState) (w : World) :
    Except PyErr JsonValue × ApiState × World :=
  match get_api_url st with
  | (.error e, st) => (.error e, st, w)
  | (.ok url, st) =>
    let is_live := isLiveUrl url
    match w.script with
    | [] => (.error .transport, st, w)
    | data :: rest =>
      let w : World :=
        ⟨rest, w.requests ++ [⟨url, is_live, method, parameters⟩], w.newCredentials⟩
      (interpretBody data, st, w)

/-- Method `authenticate()`: queries `Authenticate` with
`{database, userName, password, global: true}`.  On a truthy result it
resolves the server from `result['path']` (kept only when different from
the literal `ThisServer`), and replaces `self.credentials` with a freshly
constructed `Credentials(c['userName'], c['sessionId'], c['database'],
server)` — password defaulted to `None` — returning it; on a falsy result
it falls off the end returning `None`.  A `MyGeotabException` named
`InvalidUserException` is translated to `AuthenticationException(username,
database, server)`; any other exception propagates.  The payload
`{database, userName, password, global: true}` it queries with: -/
def auth_data (c : Credentials) : Dict :=
  [("database", c.database), ("userName", c.username),
   ("password", c.password), ("global", .bool true)]

/-- Server resolution in `authenticate`: keep `result['path']` unless it is
the literal string `ThisServer`, in which case the currently held server is
retained. -/
def resolveServer (new_server old : JsonValue) : JsonValue :=
  if !(pyEqStr new_server "ThisServer") then new_server else old

/-- Method `authenticate()` itself; see the comment on `auth_data`. -/
def authenticate (st : ApiState) (w : World) :
    Except PyErr (Option Credentials) × ApiState × World :=
  match st.credentials with
  | none => (.error .typeOrKeyError, st, w)
  | some c0 =>
    match query "Authenticate" (auth_data c0) st w with
    | (.ok result, st, w) =>
      if truthy result then
        match pySubscr result "path" with
        | none => (.error .typeOrKeyError, st, w)
        | some new_server =>
          match st.credentials with
          | none => (.error .typeOrKeyError, st, w)
          | some c1 =>
            let server := resolveServer new_server c1.server
            match pySubscr result "credentials" with
            | none => (.error .typeOrKeyError, st, w)
            | some cj =>
              match pySubscr cj "userName", pySubscr cj "sessionId",
                    pySubscr cj "database" with
              | some u, some s, some d =>
                let newc : Credentials := ⟨u, s, d, server, .null⟩
                (.ok (some newc), { st with credentials := some newc },
                 { w with newCredentials := w.newCredentials ++ [newc] })
              | _, _, _ => (.error .typeOrKeyError, st, w)
      else (.ok none, st, w)
    | (.error e, st, w) =>
      match e with
      | .mgError name _ _ _ =>
        if pyEqStr name "InvalidUserException" then
          match st.credentials with
          | none => (.error .typeOrKeyError, st, w)
          | some c1 =>
            (.error (.authError c1.username c1.database c1.server), st, w)
        else (.error e, st, w)
      | _ => (.error e, st, w)

/-- Method `call(method, type_name=None, **parameters)`, with explicit fuel
bounding the recursive retry (`callFuel_fuel_indep` shows any fuel ≥ 2
computes the true unbounded semantics).  Mirrors the source line by line:
reject a `None` method; the source's `if parameters is None: parameters = {}`
is dead (`**parameters` always binds a dict) and `parameters` is modelled as
a `Dict` directly; merge a truthy `type_name` under key `typeName`;
run `authenticate()` if the credentials *reference* is `None`; attach
`credentials` when the key is absent and the session id is truthy; query;
on a non-`None` result reset the counter and return it; on a
`MyGeotabException` named `InvalidUserException` with the counter at 0,
increment the counter, authenticate, and retry via
`self.call(method, parameters)` — note the preprocessed parameters dict is
passed positionally into the `type_name` slot; any other exception (or a
repeat failure) propagates; otherwise return `None` (without touching the
counter). -/
def callFuel : Nat → Option String → JsonValue → Dict → ApiState → World →
    Except PyErr JsonValue × ApiState × World
  | 0, _, _, _, st, w => (.error (.genericError "fuel"), st, w)
  | fuel + 1, methodOpt, type_name, parameters, st, w =>
    match methodOpt with
    | none => (.error (.genericError "Must specify a method name"), st, w)
    | some method =>
      let parameters := if truthy type_name then dset parameters "typeName" type_name
                        else parameters
      let (pre, st, w) :=
        match st.credentials with
        | none =>
          match authenticate st w with
          | (.ok _, st, w) => ((Except.ok () : Except PyErr Unit), st, w)
          | (.error e, st, w) => (.error e, st, w)
        | some _ => (.ok (), st, w)
      match pre with
      | .error e => (.error e, st, w)
      | .ok _ =>
        match st.credentials with
        | none => (.error .typeOrKeyError, st, w)
        | some c =>
          let parameters :=
            if !(dmem parameters "credentials") && truthy c.session_id then
              dset parameters "credentials" c.get_param
            else parameters
          match query method parameters st w with
          | (.ok result, st, w) =>
            if !result.isNull then
              (.ok result, { st with reauthorize_count := 0 }, w)
            else
              (.ok .null, st, w)
          | (.error e, st, w) =>
            match e with
            | .mgError name _ _ _ =>
              if pyEqStr name "InvalidUserException" && st.reauthorize_count == 0 then
                let st := { st with reauthorize_count := st.reauthorize_count + 1 }
                match authenticate st w with
                | (.error e2, st, w) => (.error e2, st, w)
                | (.ok _, st, w) =>
                  callFuel fuel (some method) (.obj parameters) [] st w
              else (.error e, st, w)
            | _ => (.error e, st, w)

/-- Method `call`: the retry recursion reaches depth at most 1 (the guard
`_reauthorize_count == 0` fails on the inner attempt), so fuel 2 computes
the exact semantics (`callFuel_fuel_indep`). -/
def call (methodOpt : Option String) (type_name : JsonValue)
    (parameters : Dict) (st : ApiState) (w : World) :
    Except PyErr JsonValue × ApiState × World :=
  callFuel 2 methodOpt type_name parameters st w

/-- Method `multi_call(*calls)`: formats each 2-tuple as
`dict(method=call[0], params=call[1])` and forwards them in one
`ExecuteMultiCall` invocation under parameter `calls`. -/
def multi_call (calls : List (JsonValue × JsonValue)) (st : ApiState)
    (w : World) : Except PyErr JsonValue × ApiState × World :=
  let formatted_calls :=
    calls.map fun cl => JsonValue.obj [("method", cl.1), ("params", cl.2)]
  call (some "ExecuteMultiCall") .null [("calls", .arr formatted_calls)] st w

/-- Method `get(type_name, **parameters)`: `call('Get', type_name, ...)`. -/
def get (type_name : JsonValue) (parameters : Dict) (st : ApiState)
    (w : World) : Except PyErr JsonValue × ApiState × World :=
  call (some "Get") type_name parameters st w

/-- Method `add(type_name, entity)`: `call('Add', type_name, entity=entity)`. -/
def add (type_name entity : JsonValue) (st : ApiState) (w : World) :
    Except PyErr JsonValue × ApiState × World :=
  call (some "Add") type_name [("entity", entity)] st w

/-- Method `set(type_name, entity)`: `call('Set', type_name, entity=entity)`. -/
def set (type_name entity : JsonValue) (st : ApiState) (w : World) :
    Except PyErr JsonValue × ApiState × World :=
  call (some "Set") type_name [("entity", entity)] st w

/-- Method `remove(type_name, entity)`:
`call('Remove', type_name, entity=entity)`. -/
def remove (type_name entity : JsonValue) (st : ApiState) (w : World) :
    Except PyErr JsonValue × ApiState × World :=
  call (some "Remove") type_name [("entity", entity)] st w

end API

open API

/-- Merged parameter preprocessing performed by `call` when the credentials
reference is present: merge a truthy `type_name` under `typeName`, then
attach `credentials` when absent and the session id is truthy. -/
def prepParams (c : Credentials) (type_name : JsonValue) (ps : Dict) : Dict :=
  let ps := if truthy type_name then dset ps "typeName" type_name else ps
  if !(dmem ps "credentials") && truthy c.session_id then
    dset ps "credentials" c.get_param
  else ps

/-- Inner record of a server error envelope: `{errors: [{name, message,
stackTrace}]}`. -/
def errPayload (nm mg stk : JsonValue) : JsonValue :=
  .obj [("errors", .arr [.obj [("name", nm), ("message", mg),
                               ("stackTrace", stk)]])]

/-- Full application-error response body: `{error: {errors: [...]}}`. -/
def errEnvelope (nm mg stk : JsonValue) : JsonValue :=
  .obj [("error", errPayload nm mg stk)]

/-- Successful `Authenticate` response body: `{path, credentials:
{userName, sessionId, database}}`. -/
def authBody (path u s d : JsonValue) : JsonValue :=
  .obj [("path", path),
        ("credentials", .obj [("userName", u), ("sessionId", s),
                              ("database", d)])]

/-- Response body carrying a result payload: `{result: r}`. -/
def resultBody (r : JsonValue) : JsonValue := .obj [("result", r)]

theorem pySubscr_obj (kvs : Dict) (k : String) :
    pySubscr (.obj kvs) k = dlookup kvs k := rfl

theorem interpretBody_errEnvelope (nm mg stk : JsonValue) :
    interpretBody (errEnvelope nm mg stk) =
      .error (.mgError nm mg stk (errPayload nm mg stk)) := rfl

theorem interpretBody_resultBody (r : JsonValue) :
    interpretBody (resultBody r) = .ok r := rfl

theorem interpretBody_authBody (path u s d : JsonValue) :
    interpretBody (authBody path u s d) = .ok (authBody path u s d) := rfl

theorem interpretBody_obj_plain (kvs : Dict) (hkvs : kvs ≠ [])
    (hne : dmem kvs "error" = false) (hnr : dmem kvs "result" = false) :
    interpretBody (.obj kvs) = .ok (.obj kvs) := by
  simp [interpretBody, truthy, pyMem, hne, hnr, hkvs]

theorem query_eq (m : String) (ps : Dict) (st : ApiState) (c : Credentials)
    (hc : st.credentials = some c) (srv : String)
    (hsrv : c.server = .str srv) (hs : srv ≠ "")
    (w : World) (d : JsonValue) (rest : List JsonValue)
    (hw : w.script = d :: rest) :
    API.query m ps st w =
      (interpretBody d, st,
       ⟨rest, w.requests ++ [⟨apiUrl srv, isLiveUrl (apiUrl srv), m, ps⟩],
        w.newCredentials⟩) := by
  obtain ⟨sc, rc⟩ := st
  obtain ⟨ws, wr, wl⟩ := w
  simp only at hc hw
  subst hc hw
  simp [API.query, API.get_api_url, hsrv, truthy, hs]

theorem callFuel_someCreds (fuel : Nat) (m : String) (tn : JsonValue)
    (ps : Dict) (c : Credentials) (cnt : Nat) (w : World) :
    API.callFuel (fuel + 1) (some m) tn ps ⟨some c, cnt⟩ w =
      (match API.query m (prepParams c tn ps) ⟨some c, cnt⟩ w with
       | (.ok result, st, w) =>
         if !result.isNull then
           (.ok result, { st with reauthorize_count := 0 }, w)
         else
           (.ok .null, st, w)
       | (.error e, st, w) =>
         match e with
         | .mgError name _ _ _ =>
           if pyEqStr name "InvalidUserException" && st.reauthorize_count == 0 then
             match API.authenticate
                 { st with reauthorize_count := st.reauthorize_count + 1 } w with
             | (.error e2, st, w) => (.error e2, st, w)
             | (.ok _, st, w) =>
               API.callFuel fuel (some m) (.obj (prepParams c tn ps)) [] st w
           else (.error e, st, w)
         | _ => (.error e, st, w)) := rfl

theorem authenticate_someCreds (c0 : Credentials) (cnt : Nat) (w : World) :
    API.authenticate ⟨some c0, cnt⟩ w =
      (match API.query "Authenticate" (auth_data c0) ⟨some c0, cnt⟩ w with
       | (.ok result, st, w) =>
         if truthy result then
           match pySubscr result "path" with
           | none => (.error .typeOrKeyError, st, w)
           | some new_server =>
             match st.credentials with
             | none => (.error .typeOrKeyError, st, w)
             | some c1 =>
               match pySubscr result "credentials" with
               | none => (.error .typeOrKeyError, st, w)
               | some cj =>
                 match pySubscr cj "userName", pySubscr cj "sessionId",
                       pySubscr cj "database" with
                 | some u, some s, some d =>
                   let newc : Credentials :=
                     ⟨u, s, d, resolveServer new_server c1.server, .null⟩
                   (.ok (some newc), { st with credentials := some newc },
                    { w with newCredentials := w.newCredentials ++ [newc] })
                 | _, _, _ => (.error .typeOrKeyError, st, w)
         else (.ok none, st, w)
       | (.error e, st, w) =>
         match e with
         | .mgError name _ _ _ =>
           if pyEqStr name "InvalidUserException" then
             match st.credentials with
             | none => (.error .typeOrKeyError, st, w)
             | some c1 =>
               (.error (.authError c1.username c1.database c1.server), st, w)
           else (.error e, st, w)
         | _ => (.error e, st, w)) := rfl

/-- World after one request has been issued and its scripted response body
consumed. -/
def afterRequest (w : World) (srv m : String) (ps : Dict)
    (rest : List JsonValue) : World :=
  ⟨rest, w.requests ++ [⟨apiUrl srv, isLiveUrl (apiUrl srv), m, ps⟩],
   w.newCredentials⟩

theorem callFuel_ok_result (fuel : Nat) (m : String) (tn : JsonValue)
    (ps : Dict) (c : Credentials) (cnt : Nat) (srv : String)
    (hsrv : c.server = .str srv) (hs : srv ≠ "")
    (w : World) (d : JsonValue) (rest : List JsonValue)
    (hw : w.script = d :: rest) (r : JsonValue)
    (hint : interpretBody d = .ok r) (hr : r.isNull = false) :
    API.callFuel (fuel + 1) (some m) tn ps ⟨some c, cnt⟩ w =
      (.ok r, ⟨some c, 0⟩, afterRequest w srv m (prepParams c tn ps) rest) := by
  rw [callFuel_someCreds,
      query_eq m (prepParams c tn ps) ⟨some c, cnt⟩ c rfl srv hsrv hs w d rest hw,
      hint]
  simp [hr, afterRequest]

theorem callFuel_ok_null (fuel : Nat) (m : String) (tn : JsonValue)
    (ps : Dict) (c : Credentials) (cnt : Nat) (srv : String)
    (hsrv : c.server = .str srv) (hs : srv ≠ "")
    (w : World) (d : JsonValue) (rest : List JsonValue)
    (hw : w.script = d :: rest)
    (hint : interpretBody d = .ok .null) :
    API.callFuel (fuel + 1) (some m) tn ps ⟨some c, cnt⟩ w =
      (.ok .null, ⟨some c, cnt⟩,
       afterRequest w srv m (prepParams c tn ps) rest) := by
  rw [callFuel_someCreds,
      query_eq m (prepParams c tn ps) ⟨some c, cnt⟩ c rfl srv hsrv hs w d rest hw,
      hint]
  simp [JsonValue.isNull, afterRequest]

theorem callFuel_error_no_retry (fuel : Nat) (m : String) (tn : JsonValue)
    (ps : Dict) (c : Credentials) (cnt : Nat) (srv : String)
    (hsrv : c.server = .str srv) (hs : srv ≠ "")
    (w : World) (d : JsonValue) (rest : List JsonValue)
    (hw : w.script = d :: rest) (e : PyErr)
    (hint : interpretBody d = .error e)
    (hguard : ∀ nm mg stk fl, e = .mgError nm mg stk fl →
      (pyEqStr nm "InvalidUserException" && (cnt == 0)) = false) :
    API.callFuel (fuel + 1) (some m) tn ps ⟨some c, cnt⟩ w =
      (.error e, ⟨some c, cnt⟩,
       afterRequest w srv m (prepParams c tn ps) rest) := by
  rw [callFuel_someCreds,
      query_eq m (prepParams c tn ps) ⟨some c, cnt⟩ c rfl srv hsrv hs w d rest hw,
      hint]
  cases e with
  | mgError nm mg stk fl =>
      simp [hguard nm mg stk fl rfl, afterRequest]
  | authError u d s => simp [afterRequest]
  | genericError msg => simp [afterRequest]
  | typeOrKeyError => simp [afterRequest]
  | transport => simp [afterRequest]

theorem callFuel_retry (fuel : Nat) (m : String) (tn : JsonValue)
    (ps : Dict) (c : Credentials) (srv : String)
    (hsrv : c.server = .str srv) (hs : srv ≠ "")
    (w : World) (d : JsonValue) (rest : List JsonValue)
    (hw : w.script = d :: rest) (nm mg stk fl : JsonValue)
    (hint : interpretBody d = .error (.mgError nm mg stk fl))
    (hnm : pyEqStr nm "InvalidUserException" = true) :
    API.callFuel (fuel + 1) (some m) tn ps ⟨some c, 0⟩ w =
      (match API.authenticate ⟨some c, 1⟩
          (afterRequest w srv m (prepParams c tn ps) rest) with
       | (.error e2, st, w) => (.error e2, st, w)
       | (.ok _, st, w) =>
         API.callFuel fuel (some m) (.obj (prepParams c tn ps)) [] st w) := by
  rw [callFuel_someCreds,
      query_eq m (prepParams c tn ps) ⟨some c, 0⟩ c rfl srv hsrv hs w d rest hw,
      hint]
  simp [hnm, afterRequest]

theorem resolveServer_thisServer (old : JsonValue) :
    resolveServer (.str "ThisServer") old = old := rfl

/-- World after one request has been issued and its scripted response body
consumed. -/
theorem authenticate_success (c : Credentials) (cnt : Nat) (srv : String)
    (hsrv : c.server = .str srv) (hs : srv ≠ "")
    (w : World) (kvs : Dict) (rest : List JsonValue)
    (hw : w.script = .obj kvs :: rest) (hkvs : kvs ≠ [])
    (hne : dmem kvs "error" = false) (hnr : dmem kvs "result" = false)
    (pth : JsonValue) (hp : dlookup kvs "path" = some pth)
    (cjk : Dict) (hcj : dlookup kvs "credentials" = some (.obj cjk))
    (u s d : JsonValue)
    (hu : dlookup cjk "userName" = some u)
    (hsid : dlookup cjk "sessionId" = some s)
    (hdb : dlookup cjk "database" = some d) :
    API.authenticate ⟨some c, cnt⟩ w =
      (.ok (some ⟨u, s, d, resolveServer pth (.str srv), .null⟩),
       ⟨some ⟨u, s, d, resolveServer pth (.str srv), .null⟩, cnt⟩,
       ⟨rest,
        w.requests ++ [⟨apiUrl srv, isLiveUrl (apiUrl srv), "Authenticate",
          auth_data c⟩],
        w.newCredentials ++ [⟨u, s, d, resolveServer pth (.str srv), .null⟩]⟩) := by
  rw [authenticate_someCreds,
      query_eq "Authenticate" (auth_data c) ⟨some c, cnt⟩ c rfl srv hsrv hs w
        (.obj kvs) rest hw,
      interpretBody_obj_plain kvs hkvs hne hnr]
  simp [truthy, hkvs, pySubscr, hp, hcj, hu, hsid, hdb, hsrv]

theorem callFuel_no_retry_world (fuel : Nat) (m : String) (tn : JsonValue)
    (ps : Dict) (c : Credentials) (cnt : Nat) (srv : String)
    (hsrv : c.server = .str srv) (hs : srv ≠ "")
    (w : World) (d : JsonValue) (rest : List JsonValue)
    (hw : w.script = d :: rest) (hcnt : cnt ≠ 0) :
    (API.callFuel (fuel + 1) (some m) tn ps ⟨some c, cnt⟩ w).2.2 =
      afterRequest w srv m (prepParams c tn ps) rest := by
  rw [callFuel_someCreds,
      query_eq m (prepParams c tn ps) ⟨some c, cnt⟩ c rfl srv hsrv hs w d rest hw]
  cases hint : interpretBody d with
  | ok r =>
      by_cases hr : r.isNull = true
      · simp [hr, afterRequest]
      · simp [Bool.eq_false_iff.mpr hr, afterRequest]
  | error e =>
      cases e with
      | mgError nm mg stk fl => simp [hcnt, afterRequest]
      | authError u d s => simp [afterRequest]
      | genericError msg => simp [afterRequest]
      | typeOrKeyError => simp [afterRequest]
      | transport => simp [afterRequest]

/-- C1: on an application error named `InvalidUserException` with the
reauthorization counter at 0, `call` increments the counter, invokes
`authenticate()` (one `Authenticate` request), and retries the call exactly
once — the trace grows by exactly three requests: the original, the
authentication, and one retry carrying the same method name (conjunct 1).
If the retry again yields `InvalidUserException`, that application error
propagates to the caller with no further retry (conjunct 2).  While the
counter is already nonzero, an `InvalidUserException` propagates after a
single request (conjunct 3), and an application error with any other name
propagates immediately without any retry (conjunct 4). -/
theorem C1_invalid_user_retry
    (m : String) (tn : JsonValue) (ps : Dict) (c : Credentials) (srv : String)
    (hsrv : c.server = .str srv) (hs : srv ≠ "")
    (au asid adb mg stk : JsonValue) (w : World) :
    (∀ d₂ rest₂,
       w.script = errEnvelope (.str "InvalidUserException") mg stk ::
         authBody (.str "ThisServer") au asid adb :: d₂ :: rest₂ →
       (API.call (some m) tn ps ⟨some c, 0⟩ w).2.2.requests =
         w.requests ++
           [⟨apiUrl srv, isLiveUrl (apiUrl srv), m, prepParams c tn ps⟩,
            ⟨apiUrl srv, isLiveUrl (apiUrl srv), "Authenticate", auth_data c⟩,
            ⟨apiUrl srv, isLiveUrl (apiUrl srv), m,
             prepParams ⟨au, asid, adb, .str srv, .null⟩
               (.obj (prepParams c tn ps)) []⟩]) ∧
    (∀ mg₂ stk₂ rest₂,
       w.script = errEnvelope (.str "InvalidUserException") mg stk ::
         authBody (.str "ThisServer") au asid adb ::
         errEnvelope (.str "InvalidUserException") mg₂ stk₂ :: rest₂ →
       (API.call (some m) tn ps ⟨some c, 0⟩ w).1 =
         .error (.mgError (.str "InvalidUserException") mg₂ stk₂
           (errPayload (.str "InvalidUserException") mg₂ stk₂))) ∧
    (∀ cnt rest, cnt ≠ 0 →
       w.script = errEnvelope (.str "InvalidUserException") mg stk :: rest →
       API.call (some m) tn ps ⟨some c, cnt⟩ w =
         (.error (.mgError (.str "InvalidUserException") mg stk
            (errPayload (.str "InvalidUserException") mg stk)),
          ⟨some c, cnt⟩, afterRequest w srv m (prepParams c tn ps) rest)) ∧
    (∀ nm cnt rest, pyEqStr nm "InvalidUserException" = false →
       w.script = errEnvelope nm mg stk :: rest →
       API.call (some m) tn ps ⟨some c, cnt⟩ w =
         (.error (.mgError nm mg stk (errPayload nm mg stk)),
          ⟨some c, cnt⟩, afterRequest w srv m (prepParams c tn ps) rest)) := by
  refine ⟨?_, ?_, ?_, ?_⟩
  · intro d₂ rest₂ hw
    show (API.callFuel (1 + 1) (some m) tn ps ⟨some c, 0⟩ w).2.2.requests = _
    rw [callFuel_retry 1 m tn ps c srv hsrv hs w _ _ hw _ mg stk _
          (interpretBody_errEnvelope _ mg stk) rfl]
    have h2 := authenticate_success c 1 srv hsrv hs
      (afterRequest w srv m (prepParams c tn ps)
        (authBody (.str "ThisServer") au asid adb :: d₂ :: rest₂))
      [("path", JsonValue.str "ThisServer"),
       ("credentials", JsonValue.obj [("userName", au), ("sessionId", asid),
                                      ("database", adb)])]
      (d₂ :: rest₂) rfl (by simp) rfl rfl (.str "ThisServer") rfl
      [("userName", au), ("sessionId", asid), ("database", adb)]
      rfl au asid adb rfl rfl rfl
    rw [resolveServer_thisServer] at h2
    rw [h2]
    simp only []
    have h3 : (API.callFuel 1 (some m) (.obj (prepParams c tn ps)) []
        ⟨some ⟨au, asid, adb, .str srv, .null⟩, 1⟩
        ⟨d₂ :: rest₂,
         (afterRequest w srv m (prepParams c tn ps)
           (authBody (.str "ThisServer") au asid adb :: d₂ :: rest₂)).requests ++
           [⟨apiUrl srv, isLiveUrl (apiUrl srv), "Authenticate", auth_data c⟩],
         (afterRequest w srv m (prepParams c tn ps)
           (authBody (.str "ThisServer") au asid adb :: d₂ :: rest₂)).newCredentials ++
           [⟨au, asid, adb, .str srv, .null⟩]⟩).2.2 =
        afterRequest
          ⟨d₂ :: rest₂,
           (afterRequest w srv m (prepParams c tn ps)
             (authBody (.str "ThisServer") au asid adb :: d₂ :: rest₂)).requests ++
             [⟨apiUrl srv, isLiveUrl (apiUrl srv), "Authenticate", auth_data c⟩],
           (afterRequest w srv m (prepParams c tn ps)
             (authBody (.str "ThisServer") au asid adb :: d₂ :: rest₂)).newCredentials ++
             [⟨au, asid, adb, .str srv, .null⟩]⟩
          srv m (prepParams ⟨au, asid, adb, .str srv, .null⟩
            (.obj (prepParams c tn ps)) []) rest₂ :=
      callFuel_no_retry_world 0 m (.obj (prepParams c tn ps)) []
        ⟨au, asid, adb, .str srv, .null⟩ 1 srv rfl hs _ d₂ rest₂ rfl one_ne_zero
    rw [h3]
    simp [afterRequest]
  · intro mg₂ stk₂ rest₂ hw
    show (API.callFuel (1 + 1) (some m) tn ps ⟨some c, 0⟩ w).1 = _
    rw [callFuel_retry 1 m tn ps c srv hsrv hs w _ _ hw _ mg stk _
          (interpretBody_errEnvelope _ mg stk) rfl]
    have h2 := authenticate_success c 1 srv hsrv hs
      (afterRequest w srv m (prepParams c tn ps)
        (authBody (.str "ThisServer") au asid adb ::
          errEnvelope (.str "InvalidUserException") mg₂ stk₂ :: rest₂))
      [("path", JsonValue.str "ThisServer"),
       ("credentials", JsonValue.obj [("userName", au), ("sessionId", asid),
                                      ("database", adb)])]
      (errEnvelope (.str "InvalidUserException") mg₂ stk₂ :: rest₂) rfl
      (by simp) rfl rfl (.str "ThisServer") rfl
      [("userName", au), ("sessionId", asid), ("database", adb)]
      rfl au asid adb rfl rfl rfl
    rw [resolveServer_thisServer] at h2
    rw [h2]
    simp only []
    have h3 : API.callFuel 1 (some m) (.obj (prepParams c tn ps)) []
        ⟨some ⟨au, asid, adb, .str srv, .null⟩, 1⟩
        ⟨errEnvelope (.str "InvalidUserException") mg₂ stk₂ :: rest₂,
         (afterRequest w srv m (prepParams c tn ps)
           (authBody (.str "ThisServer") au asid adb ::
             errEnvelope (.str "InvalidUserException") mg₂ stk₂ :: rest₂)).requests ++
           [⟨apiUrl srv, isLiveUrl (apiUrl srv), "Authenticate", auth_data c⟩],
         (afterRequest w srv m (prepParams c tn ps)
           (authBody (.str "ThisServer") au asid adb ::
             errEnvelope (.str "InvalidUserException") mg₂ stk₂ :: rest₂)).newCredentials ++
           [⟨au, asid, adb, .str srv, .null⟩]⟩ =
        (.error (.mgError (.str "InvalidUserException") mg₂ stk₂
           (errPayload (.str "InvalidUserException") mg₂ stk₂)),
         ⟨some ⟨au, asid, adb, .str srv, .null⟩, 1⟩,
         afterRequest
           ⟨errEnvelope (.str "InvalidUserException") mg₂ stk₂ :: rest₂,
            (afterRequest w srv m (prepParams c tn ps)
              (authBody (.str "ThisServer") au asid adb ::
                errEnvelope (.str "InvalidUserException") mg₂ stk₂ :: rest₂)).requests ++
              [⟨apiUrl srv, isLiveUrl (apiUrl srv), "Authenticate", auth_data c⟩],
            (afterRequest w srv m (prepParams c tn ps)
              (authBody (.str "ThisServer") au asid adb ::
                errEnvelope (.str "InvalidUserException") mg₂ stk₂ :: rest₂)).newCredentials ++
              [⟨au, asid, adb, .str srv, .null⟩]⟩
           srv m (prepParams ⟨au, asid, adb, .str srv, .null⟩
             (.obj (prepParams c tn ps)) []) rest₂) :=
      callFuel_error_no_retry 0 m (.obj (prepParams c tn ps)) []
        ⟨au, asid, adb, .str srv, .null⟩ 1 srv rfl hs _ _ rest₂ rfl _
        (interpretBody_errEnvelope _ mg₂ stk₂)
        (by intro nm' mg' stk' fl' he; cases he; rfl)
    rw [h3]
  · intro cnt rest hcnt hw
    show API.callFuel (1 + 1) (some m) tn ps ⟨some c, cnt⟩ w = _
    exact callFuel_error_no_retry 1 m tn ps c cnt srv hsrv hs w _ rest hw _
      (interpretBody_errEnvelope _ mg stk)
      (by intro nm' mg' stk' fl' he; cases he; simp [pyEqStr, hcnt])
  · intro nm cnt rest hnm hw
    show API.callFuel (1 + 1) (some m) tn ps ⟨some c, cnt⟩ w = _
    exact callFuel_error_no_retry 1 m tn ps c cnt srv hsrv hs w _ rest hw _
      (interpretBody_errEnvelope nm mg stk)
      (by intro nm' mg' stk' fl' he; cases he; simp [hnm])

/-- C1 witness: concrete double-`InvalidUserException` run — the second
failure propagates as the application error, with no loop. -/
theorem C1_invalid_user_retry_witness :
    (API.call (some "Get") .null []
        ⟨some ⟨.str "u", .str "sid", .str "db", .str "my.geotab.com", .null⟩, 0⟩
        ⟨[errEnvelope (.str "InvalidUserException") (.str "m1") (.str "s1"),
          authBody (.str "ThisServer") (.str "u") (.str "sid2") (.str "db"),
          errEnvelope (.str "InvalidUserException") (.str "m2") (.str "s2")],
         [], []⟩).1 =
      .error (.mgError (.str "InvalidUserException") (.str "m2") (.str "s2")
        (errPayload (.str "InvalidUserException") (.str "m2") (.str "s2"))) :=
  (C1_invalid_user_retry "Get" .null []
      ⟨.str "u", .str "sid", .str "db", .str "my.geotab.com", .null⟩
      "my.geotab.com" rfl (by decide)
      (.str "u") (.str "sid2") (.str "db") (.str "m1") (.str "s1")
      ⟨[errEnvelope (.str "InvalidUserException") (.str "m1") (.str "s1"),
        authBody (.str "ThisServer") (.str "u") (.str "sid2") (.str "db"),
        errEnvelope (.str "InvalidUserException") (.str "m2") (.str "s2")],
       [], []⟩).2.1 (.str "m2") (.str "s2") [] rfl

/-- C2: the retried invocation is NOT the same call as the original.  On the
concrete run `call('Get', type_name='Device', search='X')` whose first
response is an `InvalidUserException`, the source's retry
`self.call(method, parameters)` passes the preprocessed parameters dict
positionally into the `type_name` slot, so the retried request nests the
original mapping under key `typeName` and does not resend the original
`search`/`typeName` entries.  The three issued requests' parameter
mappings, computed: the original call's, the `Authenticate` payload, and a
retry envelope different from the original. -/
theorem C2_retry_nests_parameters :
    ((API.call (some "Get") (.str "Device") [("search", .str "X")]
        ⟨some ⟨.str "u", .str "sid", .str "db", .str "my.geotab.com", .null⟩, 0⟩
        ⟨[errEnvelope (.str "InvalidUserException") (.str "m1") (.str "s1"),
          authBody (.str "ThisServer") (.str "u") (.str "sid2") (.str "db"),
          resultBody (.str "R")], [], []⟩).2.2.requests.map Request.params =
      [[("search", .str "X"), ("typeName", .str "Device"),
        ("credentials", .obj [("userName", .str "u"), ("sessionId", .str "sid"),
                              ("database", .str "db")])],
       [("database", .str "db"), ("userName", .str "u"),
        ("password", .null), ("global", .bool true)],
       [("typeName", .obj
          [("search", .str "X"), ("typeName", .str "Device"),
           ("credentials", .obj [("userName", .str "u"), ("sessionId", .str "sid"),
                                 ("database", .str "db")])]),
        ("credentials", .obj [("userName", .str "u"), ("sessionId", .str "sid2"),
                              ("database", .str "db")])]]) ∧
    dlookup [("typeName", JsonValue.obj
        [("search", .str "X"), ("typeName", .str "Device"),
         ("credentials", .obj [("userName", .str "u"), ("sessionId", .str "sid"),
                               ("database", .str "db")])]),
       ("credentials", .obj [("userName", .str "u"), ("sessionId", .str "sid2"),
                             ("database", .str "db")])] "search" = none := by
  exact ⟨rfl, rfl⟩

/-- C3 counterexample: the decoded body is the JSON string `"error"` — a
truthy non-mapping containing no `error` *key* — so the claim requires the
full body to be returned, but the code's `'error' in data` succeeds by
substring membership and the subsequent `data['error']` subscript raises a
`TypeError` instead. -/
theorem C3_counterexample :
    (API.query "Get" []
        ⟨some ⟨.str "u", .str "sid", .str "db", .str "my.geotab.com", .null⟩, 0⟩
        ⟨[.str "error"], [], []⟩).1 = .error .typeOrKeyError ∧
    (∀ kvs, (JsonValue.str "error") ≠ .obj kvs) ∧
    (API.query "Get" []
        ⟨some ⟨.str "u", .str "sid", .str "db", .str "my.geotab.com", .null⟩, 0⟩
        ⟨[.str "error"], [], []⟩).1 ≠ .ok (.str "error") :=
  ⟨rfl, fun _ h => JsonValue.noConfusion h, fun h => Except.noConfusion h⟩

/-- C3 amended: response interpretation for a query.  Falsy body → `None`;
a mapping with an `error` key and well-formed `errors[0]` → the application
error built from it; else a mapping with a `result` key → that value; a
mapping with neither → the whole body.  For truthy non-mapping bodies,
membership is Python's `in`: without an `error`/`result` member the whole
body is returned, but with such a member the subscript raises a type error
instead of returning the body (the corrected part). -/
theorem C3_response_interpretation
    (m : String) (ps : Dict) (st : ApiState) (c : Credentials)
    (hc : st.credentials = some c) (srv : String)
    (hsrv : c.server = .str srv) (hs : srv ≠ "")
    (w : World) (d : JsonValue) (rest : List JsonValue)
    (hw : w.script = d :: rest) :
    (truthy d = false → (API.query m ps st w).1 = .ok .null) ∧
    (∀ kvs fe main restE nm mg stk,
        d = .obj kvs → dlookup kvs "error" = some fe →
        pySubscr fe "errors" = some (.arr (main :: restE)) →
        pySubscr main "name" = some nm → pySubscr main "message" = some mg →
        pySubscr main "stackTrace" = some stk →
        (API.query m ps st w).1 = .error (.mgError nm mg stk fe)) ∧
    (∀ kvs r, d = .obj kvs → dmem kvs "error" = false →
        dlookup kvs "result" = some r → (API.query m ps st w).1 = .ok r) ∧
    (∀ kvs, d = .obj kvs → kvs ≠ [] → dmem kvs "error" = false →
        dmem kvs "result" = false → (API.query m ps st w).1 = .ok d) ∧
    (truthy d = true → pyMem "error" d = some false →
        pyMem "result" d = some false → (API.query m ps st w).1 = .ok d) ∧
    (truthy d = true → pyMem "error" d = some true → pySubscr d "error" = none →
        (API.query m ps st w).1 = .error .typeOrKeyError) ∧
    (truthy d = true → pyMem "error" d = some false →
        pyMem "result" d = some true → pySubscr d "result" = none →
        (API.query m ps st w).1 = .error .typeOrKeyError) := by
  rw [query_eq m ps st c hc srv hsrv hs w d rest hw]
  refine ⟨?_, ?_, ?_, ?_, ?_, ?_, ?_⟩
  · intro htr
    simp [interpretBody, htr]
  · intro kvs fe main restE nm mg stk hd he hfe hn hm hstk
    subst hd
    have hkvs : kvs ≠ [] := by
      intro h
      subst h
      simp [dlookup] at he
    have hdm : dmem kvs "error" = true := by simp [dmem, he]
    simp [interpretBody, truthy, hkvs, pyMem, hdm, pySubscr_obj, he,
          mkMyGeotabException, hfe, hn, hm, hstk]
  · intro kvs r hd hne hr
    subst hd
    have hkvs : kvs ≠ [] := by
      intro h
      subst h
      simp [dlookup] at hr
    have hdm : dmem kvs "result" = true := by simp [dmem, hr]
    simp [interpretBody, truthy, hkvs, pyMem, hne, hdm, pySubscr_obj, hr]
  · intro kvs hd hkvs hne hnr
    subst hd
    simp [interpretBody, truthy, hkvs, pyMem, hne, hnr]
  · intro htr hne hnr
    simp [interpretBody, htr, hne, hnr]
  · intro htr hme hsub
    simp [interpretBody, htr, hme, hsub]
  · intro htr hme hmr hsub
    simp [interpretBody, htr, hme, hmr, hsub]

/-- C3 witness: a concrete mapping body with a `result` key — the query
returns the result payload. -/
theorem C3_response_interpretation_witness :
    (API.query "Get" []
        ⟨some ⟨.str "u", .str "sid", .str "db", .str "my.geotab.com", .null⟩, 0⟩
        ⟨[resultBody (.str "R")], [], []⟩).1 = .ok (.str "R") :=
  (C3_response_interpretation "Get" []
      ⟨some ⟨.str "u", .str "sid", .str "db", .str "my.geotab.com", .null⟩, 0⟩
      ⟨.str "u", .str "sid", .str "db", .str "my.geotab.com", .null⟩ rfl
      "my.geotab.com" rfl (by decide)
      ⟨[resultBody (.str "R")], [], []⟩ (resultBody (.str "R")) [] rfl).2.2.1
    [("result", .str "R")] (.str "R") rfl rfl rfl

/-- In-place mutation performed by `_get_api_url` when the held server is
falsy: the `server` field of the existing `Credentials` object is
overwritten with the default host. -/
def serverDefault (c : Credentials) : Credentials :=
  { c with server := JsonValue.str "my.geotab.com" }

/-- Evolution of the held credentials reference across one operation:
either unchanged, or — starting from the held instance or from an instance
constructed during the operation (`dcred` is the operation's log of
`Credentials.__init__` calls) — possibly with the in-place server
defaulting applied. -/
def CredsEvolve (c0 : Option Credentials) (dcred : List Credentials)
    (c1 : Option Credentials) : Prop :=
  c1 = c0 ∨
  (∃ b, (c0 = some b ∨ b ∈ dcred) ∧
    (c1 = some b ∨ c1 = some (serverDefault b)))

theorem serverDefault_idem (c : Credentials) :
    serverDefault (serverDefault c) = serverDefault c := rfl

theorem CredsEvolve_trans (c0 c1 c2 : Option Credentials)
    (d1 d2 : List Credentials) (h1 : CredsEvolve c0 d1 c1)
    (h2 : CredsEvolve c1 d2 c2) : CredsEvolve c0 (d1 ++ d2) c2 := by
  rcases h2 with h2 | ⟨b2, hb2, hc2⟩
  · subst h2
    rcases h1 with h1 | ⟨b1, hb1, hc1⟩
    · exact Or.inl h1
    · refine Or.inr ⟨b1, ?_, hc1⟩
      rcases hb1 with h | h
      · exact Or.inl h
      · exact Or.inr (List.mem_append_left _ h)
  · rcases hb2 with hb2 | hb2
    · -- b2 comes from c1, which itself evolved from c0
      rcases h1 with h1 | ⟨b1, hb1, hc1⟩
      · -- c1 = c0, so b2 is held at c0
        exact Or.inr ⟨b2, Or.inl (h1 ▸ hb2), hc2⟩
      · -- c1 = some b1 or some (serverDefault b1)
        rcases hc1 with hc1 | hc1
        · rw [hc1] at hb2
          have hbe : b2 = b1 := (Option.some.inj hb2).symm
          subst hbe
          refine Or.inr ⟨b2, ?_, hc2⟩
          rcases hb1 with h | h
          · exact Or.inl h
          · exact Or.inr (List.mem_append_left _ h)
        · rw [hc1] at hb2
          have hbe : b2 = serverDefault b1 := (Option.some.inj hb2).symm
          subst hbe
          refine Or.inr ⟨b1, ?_, ?_⟩
          · rcases hb1 with h | h
            · exact Or.inl h
            · exact Or.inr (List.mem_append_left _ h)
          · rcases hc2 with h | h
            · exact Or.inr h
            · exact Or.inr (by rw [h, serverDefault_idem])
    · exact Or.inr ⟨b2, Or.inr (List.mem_append_right _ hb2), hc2⟩

theorem get_api_url_shape (st : ApiState) :
    (API.get_api_url st).2.reauthorize_count = st.reauthorize_count ∧
    CredsEvolve st.credentials [] (API.get_api_url st).2.credentials := by
  obtain ⟨sc, rc⟩ := st
  cases sc with
  | none => exact ⟨rfl, Or.inl rfl⟩
  | some c =>
    cases hsv : c.server with
    | null =>
        simp [API.get_api_url, hsv, truthy]
        exact Or.inr ⟨c, Or.inl rfl, Or.inr rfl⟩
    | bool b =>
        cases b with
        | false =>
            simp [API.get_api_url, hsv, truthy]
            exact Or.inr ⟨c, Or.inl rfl, Or.inr rfl⟩
        | true =>
            simp [API.get_api_url, hsv, truthy]
            exact Or.inl rfl
    | num n =>
        by_cases hn : n = 0
        · simp [API.get_api_url, hsv, truthy, hn]
          exact Or.inr ⟨c, Or.inl rfl, Or.inr rfl⟩
        · simp [API.get_api_url, hsv, truthy, hn]
          exact Or.inl rfl
    | str s =>
        by_cases hse : s = ""
        · simp [API.get_api_url, hsv, truthy, hse]
          exact Or.inr ⟨c, Or.inl rfl, Or.inr rfl⟩
        · simp [API.get_api_url, hsv, truthy, hse]
          exact Or.inl rfl
    | arr xs =>
        cases xs with
        | nil =>
            simp [API.get_api_url, hsv, truthy]
            exact Or.inr ⟨c, Or.inl rfl, Or.inr rfl⟩
        | cons x xs =>
            simp [API.get_api_url, hsv, truthy]
            exact Or.inl rfl
    | obj kvs =>
        cases kvs with
        | nil =>
            simp [API.get_api_url, hsv, truthy]
            exact Or.inr ⟨c, Or.inl rfl, Or.inr rfl⟩
        | cons kv kvs =>
            simp [API.get_api_url, hsv, truthy]
            exact Or.inl rfl

theorem query_shape (m : String) (ps : Dict) (st : ApiState) (w : World) :
    (API.query m ps st w).2.1.reauthorize_count = st.reauthorize_count ∧
    (API.query m ps st w).2.2.newCredentials = w.newCredentials ∧
    (∃ dreq, (API.query m ps st w).2.2.requests = w.requests ++ dreq) ∧
    CredsEvolve st.credentials [] (API.query m ps st w).2.1.credentials := by
  have hshape := get_api_url_shape st
  rcases hg : API.get_api_url st with ⟨res, st₁⟩
  rw [hg] at hshape
  obtain ⟨hcnt, hcred⟩ := hshape
  simp only [API.query, hg]
  cases res with
  | error e => exact ⟨hcnt, rfl, ⟨[], by simp⟩, hcred⟩
  | ok url =>
    cases hws : w.script with
    | nil => exact ⟨hcnt, rfl, ⟨[], by simp⟩, hcred⟩
    | cons d rest => exact ⟨hcnt, rfl, ⟨_, rfl⟩, hcred⟩

theorem authenticate_shape (st : ApiState) (w : World) :
    ∃ dcred,
      (API.authenticate st w).2.1.reauthorize_count = st.reauthorize_count ∧
      (API.authenticate st w).2.2.newCredentials = w.newCredentials ++ dcred ∧
      (∃ dreq, (API.authenticate st w).2.2.requests = w.requests ++ dreq) ∧
      CredsEvolve st.credentials dcred (API.authenticate st w).2.1.credentials := by
  obtain ⟨sc, rc⟩ := st
  cases sc with
  | none =>
      exact ⟨[], rfl, by simp [API.authenticate], ⟨[], by simp [API.authenticate]⟩,
             Or.inl rfl⟩
  | some c0 =>
    have hq := query_shape "Authenticate" (auth_data c0) ⟨some c0, rc⟩ w
    rcases hqe : API.query "Authenticate" (auth_data c0) ⟨some c0, rc⟩ w
      with ⟨res, st₁, w₁⟩
    rw [hqe] at hq
    obtain ⟨hcnt, hnc, ⟨dreq, hreq⟩, hcred⟩ := hq
    dsimp only at hcnt hnc hreq hcred
    rw [authenticate_someCreds, hqe]
    cases res with
    | ok result =>
      by_cases ht : truthy result = true
      · simp only [ht, if_true]
        rcases hp : pySubscr result "path" with _ | pth
        · simp only [hp]
          exact ⟨[], hcnt, by simp [hnc], ⟨dreq, hreq⟩, hcred⟩
        · simp only [hp]
          rcases hsc : st₁.credentials with _ | c₁
          · simp only [hsc]
            exact ⟨[], hcnt, by simp [hnc], ⟨dreq, hreq⟩, hsc ▸ hcred⟩
          · simp only [hsc]
            rcases hcj : pySubscr result "credentials" with _ | cj
            · simp only [hcj]
              exact ⟨[], hcnt, by simp [hnc], ⟨dreq, hreq⟩, hcred⟩
            · simp only [hcj]
              rcases hu : pySubscr cj "userName" with _ | u
              · simp only [hu]
                exact ⟨[], hcnt, by simp [hnc], ⟨dreq, hreq⟩, hcred⟩
              · rcases hsid : pySubscr cj "sessionId" with _ | s
                · simp only [hu, hsid]
                  exact ⟨[], hcnt, by simp [hnc], ⟨dreq, hreq⟩, hcred⟩
                · rcases hdb : pySubscr cj "database" with _ | d
                  · simp only [hu, hsid, hdb]
                    exact ⟨[], hcnt, by simp [hnc], ⟨dreq, hreq⟩, hcred⟩
                  · simp only [hu, hsid, hdb]
                    refine ⟨[⟨u, s, d, resolveServer pth c₁.server, .null⟩],
                            by simp [hcnt], by simp [hnc], ⟨dreq, by simp [hreq]⟩,
                            ?_⟩
                    exact Or.inr ⟨⟨u, s, d, resolveServer pth c₁.server, .null⟩,
                                  Or.inr (List.mem_singleton_self _), Or.inl (by simp)⟩
      · simp only [Bool.eq_false_iff.mpr ht, if_false]
        exact ⟨[], hcnt, by simp [hnc], ⟨dreq, hreq⟩, hcred⟩
    | error e =>
      cases e with
      | mgError nm mg stk fl =>
        by_cases hnm : pyEqStr nm "InvalidUserException" = true
        · simp only [hnm, if_true]
          rcases hsc : st₁.credentials with _ | c₁
          · simp only [hsc]
            exact ⟨[], hcnt, by simp [hnc], ⟨dreq, hreq⟩, hsc ▸ hcred⟩
          · simp only [hsc]
            exact ⟨[], hcnt, by simp [hnc], ⟨dreq, hreq⟩, hsc ▸ hcred⟩
        · simp only [Bool.eq_false_iff.mpr hnm, if_false]
          exact ⟨[], hcnt, by simp [hnc], ⟨dreq, hreq⟩, hcred⟩
      | authError u d s => exact ⟨[], hcnt, by simp [hnc], ⟨dreq, hreq⟩, hcred⟩
      | genericError msg => exact ⟨[], hcnt, by simp [hnc], ⟨dreq, hreq⟩, hcred⟩
      | typeOrKeyError => exact ⟨[], hcnt, by simp [hnc], ⟨dreq, hreq⟩, hcred⟩
      | transport => exact ⟨[], hcnt, by simp [hnc], ⟨dreq, hreq⟩, hcred⟩

theorem callFuel_shape (fuel : Nat) :
    ∀ (mo : Option String) (tn : JsonValue) (ps : Dict) (st : ApiState)
      (w : World),
    ∃ dcred,
      (API.callFuel fuel mo tn ps st w).2.2.newCredentials =
        w.newCredentials ++ dcred ∧
      (∃ dreq, (API.callFuel fuel mo tn ps st w).2.2.requests =
        w.requests ++ dreq) ∧
      CredsEvolve st.credentials dcred
        (API.callFuel fuel mo tn ps st w).2.1.credentials := by
  induction fuel with
  | zero =>
      intro mo tn ps st w
      exact ⟨[], by simp [API.callFuel], ⟨[], by simp [API.callFuel]⟩,
             Or.inl rfl⟩
  | succ n ih =>
    intro mo tn ps st w
    cases mo with
    | none =>
        exact ⟨[], by simp [API.callFuel], ⟨[], by simp [API.callFuel]⟩,
               Or.inl rfl⟩
    | some m =>
      obtain ⟨sc, rc⟩ := st
      cases sc with
      | none =>
          exact ⟨[], by simp [API.callFuel, API.authenticate],
                 ⟨[], by simp [API.callFuel, API.authenticate]⟩, Or.inl rfl⟩
      | some c =>
        rw [callFuel_someCreds]
        have hq := query_shape m (prepParams c tn ps) ⟨some c, rc⟩ w
        rcases hqe : API.query m (prepParams c tn ps) ⟨some c, rc⟩ w
          with ⟨res, st₁, w₁⟩
        rw [hqe] at hq
        obtain ⟨hcnt, hnc, ⟨dreq, hreq⟩, hcred⟩ := hq
        dsimp only at hcnt hnc hreq hcred
        cases res with
        | ok result =>
          by_cases hr : result.isNull = true
          · simp only [hr]
            exact ⟨[], by simp [hnc], ⟨dreq, hreq⟩, hcred⟩
          · simp only [Bool.eq_false_iff.mpr hr]
            exact ⟨[], by simp [hnc], ⟨dreq, hreq⟩, hcred⟩
        | error e =>
          cases e with
          | mgError nm mg stk fl =>
            by_cases hg :
                (pyEqStr nm "InvalidUserException" &&
                  st₁.reauthorize_count == 0) = true
            · simp only [hg, if_true]
              have ha := authenticate_shape
                { st₁ with reauthorize_count := st₁.reauthorize_count + 1 } w₁
              rcases hae : API.authenticate
                  { st₁ with reauthorize_count := st₁.reauthorize_count + 1 } w₁
                with ⟨ares, st₂, w₂⟩
              rw [hae] at ha
              obtain ⟨dcredA, hacnt, hanc, ⟨dreqA, hareq⟩, hacred⟩ := ha
              dsimp only at hacnt hanc hareq hacred
              cases ares with
              | error e2 =>
                  refine ⟨dcredA, by simp [hanc, hnc], ⟨dreq ++ dreqA,
                          by simp [hareq, hreq]⟩, ?_⟩
                  have := CredsEvolve_trans (some c) st₁.credentials
                    st₂.credentials [] dcredA hcred hacred
                  simpa using this
              | ok r0 =>
                  obtain ⟨dcredR, hrnc, ⟨dreqR, hrreq⟩, hrcred⟩ :=
                    ih (some m) (.obj (prepParams c tn ps)) [] st₂ w₂
                  refine ⟨dcredA ++ dcredR,
                          by simp [hrnc, hanc, hnc],
                          ⟨dreq ++ dreqA ++ dreqR,
                           by simp [hrreq, hareq, hreq]⟩, ?_⟩
                  have h1 := CredsEvolve_trans (some c) st₁.credentials
                    st₂.credentials [] dcredA hcred hacred
                  have h2 := CredsEvolve_trans (some c) st₂.credentials
                    _ ([] ++ dcredA) dcredR h1 hrcred
                  simpa using h2
            · simp only [Bool.eq_false_iff.mpr hg]
              exact ⟨[], by simp [hnc], ⟨dreq, hreq⟩, hcred⟩
          | authError u d s => exact ⟨[], by simp [hnc], ⟨dreq, hreq⟩, hcred⟩
          | genericError msg => exact ⟨[], by simp [hnc], ⟨dreq, hreq⟩, hcred⟩
          | typeOrKeyError => exact ⟨[], by simp [hnc], ⟨dreq, hreq⟩, hcred⟩
          | transport => exact ⟨[], by simp [hnc], ⟨dreq, hreq⟩, hcred⟩

theorem callFuel_count_le_one (fuel : Nat) :
    ∀ (mo : Option String) (tn : JsonValue) (ps : Dict) (st : ApiState)
      (w : World), st.reauthorize_count ≤ 1 →
    (API.callFuel fuel mo tn ps st w).2.1.reauthorize_count ≤ 1 := by
  induction fuel with
  | zero =>
      intro mo tn ps st w h
      simpa [API.callFuel] using h
  | succ n ih =>
    intro mo tn ps st w h
    cases mo with
    | none => simpa [API.callFuel] using h
    | some m =>
      obtain ⟨sc, rc⟩ := st
      cases sc with
      | none => simpa [API.callFuel, API.authenticate] using h
      | some c =>
        rw [callFuel_someCreds]
        have hq := query_shape m (prepParams c tn ps) ⟨some c, rc⟩ w
        rcases hqe : API.query m (prepParams c tn ps) ⟨some c, rc⟩ w
          with ⟨res, st₁, w₁⟩
        rw [hqe] at hq
        obtain ⟨hcnt, _, _, _⟩ := hq
        dsimp only at hcnt
        cases res with
        | ok result =>
          by_cases hr : result.isNull = true
          · simp only [hr]
            simpa [hcnt] using h
          · simp only [Bool.eq_false_iff.mpr hr]
            simp
        | error e =>
          cases e with
          | mgError nm mg stk fl =>
            by_cases hg :
                (pyEqStr nm "InvalidUserException" &&
                  st₁.reauthorize_count == 0) = true
            · simp only [hg, if_true]
              have hcz : st₁.reauthorize_count = 0 := by
                simp only [Bool.and_eq_true, beq_iff_eq] at hg
                exact hg.2
              have ha := authenticate_shape
                { st₁ with reauthorize_count := st₁.reauthorize_count + 1 } w₁
              rcases hae : API.authenticate
                  { st₁ with reauthorize_count := st₁.reauthorize_count + 1 } w₁
                with ⟨ares, st₂, w₂⟩
              rw [hae] at ha
              obtain ⟨dcredA, hacnt, _, _, _⟩ := ha
              dsimp only at hacnt
              have hs₂ : st₂.reauthorize_count ≤ 1 := by
                rw [hacnt, hcz]
              cases ares with
              | error e2 => simpa using hs₂
              | ok r0 => exact ih (some m) (.obj (prepParams c tn ps)) [] st₂ w₂ hs₂
            · simp only [Bool.eq_false_iff.mpr hg]
              simpa [hcnt] using h
          | authError u d s => simpa [hcnt] using h
          | genericError msg => simpa [hcnt] using h
          | typeOrKeyError => simpa [hcnt] using h
          | transport => simpa [hcnt] using h

theorem callFuel_success_resets (fuel : Nat) :
    ∀ (mo : Option String) (tn : JsonValue) (ps : Dict) (st : ApiState)
      (w : World) (r : JsonValue) (st' : ApiState) (w' : World),
    API.callFuel fuel mo tn ps st w = (.ok r, st', w') → r.isNull = false →
    st'.reauthorize_count = 0 := by
  induction fuel with
  | zero =>
      intro mo tn ps st w r st' w' h hrn
      simp [API.callFuel] at h
  | succ n ih =>
    intro mo tn ps st w r st' w' h hrn
    cases mo with
    | none => simp [API.callFuel] at h
    | some m =>
      obtain ⟨sc, rc⟩ := st
      cases sc with
      | none => simp [API.callFuel, API.authenticate] at h
      | some c =>
        rw [callFuel_someCreds] at h
        rcases hqe : API.query m (prepParams c tn ps) ⟨some c, rc⟩ w
          with ⟨res, st₁, w₁⟩
        rw [hqe] at h
        cases res with
        | ok result =>
          by_cases hr : result.isNull = true
          · simp only [hr] at h
            simp at h
            obtain ⟨h1, h2, h3⟩ := h
            subst h1
            simp [JsonValue.isNull] at hrn
          · simp only [Bool.eq_false_iff.mpr hr] at h
            simp at h
            obtain ⟨h1, h2, h3⟩ := h
            rw [← h2]
        | error e =>
          cases e with
          | mgError nm mg stk fl =>
            by_cases hg :
                (pyEqStr nm "InvalidUserException" &&
                  st₁.reauthorize_count == 0) = true
            · simp only [hg, if_true] at h
              rcases hae : API.authenticate
                  { st₁ with reauthorize_count := st₁.reauthorize_count + 1 } w₁
                with ⟨ares, st₂, w₂⟩
              rw [hae] at h
              cases ares with
              | error e2 => simp at h
              | ok r0 =>
                  exact ih (some m) (.obj (prepParams c tn ps)) [] st₂ w₂
                    r st' w' h hrn
            · simp only [Bool.eq_false_iff.mpr hg] at h
              simp at h
          | authError u d s => simp at h
          | genericError msg => simp at h
          | typeOrKeyError => simp at h
          | transport => simp at h

/-- Client states reachable from construction through the operations.  The
convenience wrappers (`multi_call`, `get`, `add`, `set`, `remove`) all
forward to `call` (= `callFuel`) with specific arguments, so `callStep`
covers them. -/
inductive Reachable : ApiState → Prop where
  | init : ∀ u p d s srv w st w',
      API.init u p d s srv w = (.ok st, w') → Reachable st
  | callStep : ∀ st w fuel mo tn ps, Reachable st →
      Reachable (API.callFuel fuel mo tn ps st w).2.1
  | authStep : ∀ st w, Reachable st →
      Reachable (API.authenticate st w).2.1
  | queryStep : ∀ st w m ps, Reachable st →
      Reachable (API.query m ps st w).2.1

/-- C5 amended: at every reachable client state the reauthorization counter
is at most 1 (first conjunct, as claimed); and after a `call` that completes
successfully with a non-null result the counter is 0 (second conjunct).  The
original claim's stronger "after any successful call" fails: a call whose
body decodes to a falsy value returns null without touching the counter
(see the counterexample). -/
theorem C5_counter_invariant :
    (∀ st, Reachable st → st.reauthorize_count ≤ 1) ∧
    (∀ fuel mo tn ps st w r st' w',
       API.callFuel fuel mo tn ps st w = (.ok r, st', w') →
       r.isNull = false → st'.reauthorize_count = 0) := by
  constructor
  · intro st h
    induction h with
    | init u p d s srv w st w' he =>
        by_cases h1 : u.isNull = true
        · simp [API.init, h1] at he
        · by_cases h2 : (p.isNull && s.isNull) = true
          · simp [API.init, h1, h2] at he
          · simp [API.init, h1, h2] at he
            obtain ⟨hst, -⟩ := he
            rw [← hst]
            exact Nat.zero_le _
    | callStep st w fuel mo tn ps _ ih =>
        exact callFuel_count_le_one fuel mo tn ps st w ih
    | authStep st w _ ih =>
        obtain ⟨-, hacnt, -, -, -⟩ := authenticate_shape st w
        rw [hacnt]
        exact ih
    | queryStep st w m ps _ ih =>
        obtain ⟨hcnt, -, -, -⟩ := query_shape m ps st w
        rw [hcnt]
        exact ih
  · intro fuel mo tn ps st w r st' w' h hrn
    exact callFuel_success_resets fuel mo tn ps st w r st' w' h hrn

/-- C5 witness: a freshly constructed client is reachable with counter 0,
and a concrete successful non-null call ends with counter 0. -/
theorem C5_counter_invariant_witness :
    (⟨some ⟨.str "u", .str "sid", .str "db", .str "my.geotab.com", .null⟩, 0⟩
      : ApiState).reauthorize_count ≤ 1 ∧
    (⟨some ⟨.str "u", .str "sid", .str "db", .str "my.geotab.com", .null⟩, 0⟩
      : ApiState).reauthorize_count = 0 :=
  ⟨C5_counter_invariant.1 _
     (Reachable.init (.str "u") .null (.str "db") (.str "sid")
       (.str "my.geotab.com") ⟨[], [], []⟩ _ _ rfl),
   C5_counter_invariant.2 2 (some "Get") .null []
     ⟨some ⟨.str "u", .str "sid", .str "db", .str "my.geotab.com", .null⟩, 1⟩
     ⟨[resultBody (.str "R")], [], []⟩ (.str "R") _ _ rfl rfl⟩

/-- C5 counterexample: a call that completes successfully (returning null
from an empty response body after a one-shot reauthentication) leaves the
counter at 1, not 0. -/
theorem C5_counterexample :
    (API.call (some "Get") .null []
        ⟨some ⟨.str "u", .str "sid", .str "db", .str "my.geotab.com", .null⟩, 0⟩
        ⟨[errEnvelope (.str "InvalidUserException") (.str "m1") (.str "s1"),
          authBody (.str "ThisServer") (.str "u") (.str "sid2") (.str "db"),
          .obj []], [], []⟩).1 = .ok .null ∧
    (API.call (some "Get") .null []
        ⟨some ⟨.str "u", .str "sid", .str "db", .str "my.geotab.com", .null⟩, 0⟩
        ⟨[errEnvelope (.str "InvalidUserException") (.str "m1") (.str "s1"),
          authBody (.str "ThisServer") (.str "u") (.str "sid2") (.str "db"),
          .obj []], [], []⟩).2.1.reauthorize_count = 1 :=
  ⟨rfl, rfl⟩

theorem dlookup_dset_self (d : Dict) (k : String) (v : JsonValue) :
    dlookup (dset d k v) k = some v := by
  induction d with
  | nil => simp [dset, dlookup]
  | cons kv rest ih =>
      obtain ⟨k', v'⟩ := kv
      by_cases hk : k' = k
      · simp [dset, dlookup, hk]
      · simp [dset, dlookup, hk, ih]

theorem dlookup_dset_ne (d : Dict) (k : String) (v : JsonValue) (k' : String)
    (h : ¬ k = k') : dlookup (dset d k v) k' = dlookup d k' := by
  induction d with
  | nil => simp [dset, dlookup, h]
  | cons kv rest ih =>
      obtain ⟨k0, v0⟩ := kv
      by_cases hk : k0 = k
      · subst hk
        simp [dset, dlookup, h]
      · simp [dset, dlookup, hk, ih]

theorem prepParams_credentials_of_truthy (c : Credentials) (tn : JsonValue)
    (ps : Dict) (hk : dmem ps "credentials" = false)
    (hsid : truthy c.session_id = true) :
    dlookup (prepParams c tn ps) "credentials" = some c.get_param := by
  unfold prepParams
  have hk' :
      dmem (if truthy tn then dset ps "typeName" tn else ps) "credentials"
        = false := by
    by_cases ht : truthy tn = true
    · simp only [ht, if_true]
      simpa [dmem, dlookup_dset_ne ps "typeName" tn "credentials" (by decide)]
        using hk
    · simp only [Bool.eq_false_iff.mpr ht, if_false]
      exact hk
  simp only [hk', hsid, Bool.not_false, Bool.true_and, if_true]
  exact dlookup_dset_self _ _ _

theorem prepParams_credentials_of_falsy (c : Credentials) (tn : JsonValue)
    (ps : Dict) (hk : dmem ps "credentials" = false)
    (hsid : truthy c.session_id = false) :
    dmem (prepParams c tn ps) "credentials" = false := by
  unfold prepParams
  have hk' :
      dmem (if truthy tn then dset ps "typeName" tn else ps) "credentials"
        = false := by
    by_cases ht : truthy tn = true
    · simp only [ht, if_true]
      simpa [dmem, dlookup_dset_ne ps "typeName" tn "credentials" (by decide)]
        using hk
    · simp only [Bool.eq_false_iff.mpr ht, if_false]
      exact hk
  simp only [hsid, Bool.and_false, if_false]
  exact hk'

theorem callFuel_first_request (n : Nat) (m : String) (tn : JsonValue)
    (ps : Dict) (c : Credentials) (rc : Nat) (srv : String)
    (hsrv : c.server = .str srv) (hs : srv ≠ "")
    (w : World) (d : JsonValue) (rest : List JsonValue)
    (hw : w.script = d :: rest) :
    ∃ more, (API.callFuel (n + 1) (some m) tn ps ⟨some c, rc⟩ w).2.2.requests =
      w.requests ++
        ⟨apiUrl srv, isLiveUrl (apiUrl srv), m, prepParams c tn ps⟩ :: more := by
  rw [callFuel_someCreds,
      query_eq m (prepParams c tn ps) ⟨some c, rc⟩ c rfl srv hsrv hs w d rest hw]
  cases hint : interpretBody d with
  | ok result =>
      by_cases hr : result.isNull = true
      · simp only [hr]
        exact ⟨[], by simp⟩
      · simp only [Bool.eq_false_iff.mpr hr]
        exact ⟨[], by simp⟩
  | error e =>
      cases e with
      | mgError nm mg stk fl =>
          by_cases hg : (pyEqStr nm "InvalidUserException" && (rc == 0)) = true
          · simp only [hg]
            have ha := authenticate_shape ⟨some c, rc + 1⟩
              ⟨rest, w.requests ++
                [⟨apiUrl srv, isLiveUrl (apiUrl srv), m, prepParams c tn ps⟩],
               w.newCredentials⟩
            rcases hae : API.authenticate ⟨some c, rc + 1⟩
                ⟨rest, w.requests ++
                  [⟨apiUrl srv, isLiveUrl (apiUrl srv), m, prepParams c tn ps⟩],
                 w.newCredentials⟩
              with ⟨ares, st₂, w₂⟩
            rw [hae] at ha
            obtain ⟨dcredA, -, -, ⟨dreqA, hareq⟩, -⟩ := ha
            dsimp only at hareq
            rw [hae]
            cases ares with
            | error e2 => exact ⟨dreqA, by simp [hareq]⟩
            | ok r0 =>
                obtain ⟨dcredR, -, ⟨dreqR, hrreq⟩, -⟩ :=
                  callFuel_shape n (some m) (.obj (prepParams c tn ps)) [] st₂ w₂
                exact ⟨dreqA ++ dreqR, by simp [hrreq, hareq]⟩
          · simp only [Bool.eq_false_iff.mpr hg]
            exact ⟨[], by simp⟩
      | authError u d s => exact ⟨[], by simp⟩
      | genericError msg => exact ⟨[], by simp⟩
      | typeOrKeyError => exact ⟨[], by simp⟩
      | transport => exact ⟨[], by simp⟩

/-- C4 counterexample: a client holding credentials with no session token
(`session_id = None`, password present).  `call` issues the RPC directly:
the only request sent is the `Get` itself — no `Authenticate` request is
triggered beforehand — and its parameters carry no `credentials` key,
because the attachment is guarded by the truthiness of the session id and
the `authenticate()` trigger is guarded by `self.credentials is None`,
which never holds after construction. -/
theorem C4_counterexample :
    API.call (some "Get") .null []
        ⟨some ⟨.str "u", .null, .str "db", .str "my.geotab.com", .str "pw"⟩, 0⟩
        ⟨[resultBody (.str "R")], [], []⟩ =
      (.ok (.str "R"),
       ⟨some ⟨.str "u", .null, .str "db", .str "my.geotab.com", .str "pw"⟩, 0⟩,
       ⟨[], [⟨"https://my.geotab.com/apiv1", true, "Get", []⟩], []⟩) ∧
    ("Get" : String) ≠ "Authenticate" ∧
    dmem ([] : Dict) "credentials" = false :=
  ⟨rfl, by decide, rfl⟩

/-- C4 amended: with the credentials reference present (the invariable case
after construction), `call` never authenticates first — the first request
issued is the called method itself — and the session credentials are
attached under `credentials` if and only if the parameters lack that key
AND the held session id is truthy; with a falsy session id the request goes
out without credentials. -/
theorem C4_call_credential_attachment
    (m : String) (tn : JsonValue) (ps : Dict) (c : Credentials) (rc : Nat)
    (srv : String) (hsrv : c.server = .str srv) (hs : srv ≠ "")
    (w : World) (d : JsonValue) (rest : List JsonValue)
    (hw : w.script = d :: rest) (hk : dmem ps "credentials" = false) :
    (truthy c.session_id = true →
      ∃ more, (API.call (some m) tn ps ⟨some c, rc⟩ w).2.2.requests =
          w.requests ++
            ⟨apiUrl srv, isLiveUrl (apiUrl srv), m, prepParams c tn ps⟩ :: more ∧
        dlookup (prepParams c tn ps) "credentials" = some c.get_param) ∧
    (truthy c.session_id = false →
      ∃ more, (API.call (some m) tn ps ⟨some c, rc⟩ w).2.2.requests =
          w.requests ++
            ⟨apiUrl srv, isLiveUrl (apiUrl srv), m, prepParams c tn ps⟩ :: more ∧
        dmem (prepParams c tn ps) "credentials" = false) := by
  constructor
  · intro hsid
    obtain ⟨more, hm⟩ :=
      callFuel_first_request 1 m tn ps c rc srv hsrv hs w d rest hw
    exact ⟨more, hm, prepParams_credentials_of_truthy c tn ps hk hsid⟩
  · intro hsid
    obtain ⟨more, hm⟩ :=
      callFuel_first_request 1 m tn ps c rc srv hsrv hs w d rest hw
    exact ⟨more, hm, prepParams_credentials_of_falsy c tn ps hk hsid⟩

/-- C4 witness: with a truthy session id, the issued request carries the
session credentials under key `credentials`. -/
theorem C4_call_credential_attachment_witness :
    ∃ more, (API.call (some "Get") .null []
        ⟨some ⟨.str "u", .str "sid", .str "db", .str "my.geotab.com", .null⟩, 0⟩
        ⟨[resultBody (.str "R")], [], []⟩).2.2.requests =
      ([] : List Request) ++
        ⟨apiUrl "my.geotab.com", isLiveUrl (apiUrl "my.geotab.com"), "Get",
         prepParams ⟨.str "u", .str "sid", .str "db", .str "my.geotab.com",
           .null⟩ .null []⟩ :: more ∧
      dlookup (prepParams ⟨.str "u", .str "sid", .str "db", .str "my.geotab.com",
          .null⟩ .null []) "credentials" =
        some (Credentials.get_param ⟨.str "u", .str "sid", .str "db",
          .str "my.geotab.com", .null⟩) :=
  (C4_call_credential_attachment "Get" .null []
      ⟨.str "u", .str "sid", .str "db", .str "my.geotab.com", .null⟩ 0
      "my.geotab.com" rfl (by decide) ⟨[resultBody (.str "R")], [], []⟩
      (resultBody (.str "R")) [] rfl rfl).1 (by decide)

/-- C6 counterexample: a server host that merely contains `localhost` as a
substring.  The built request URL is
`https://localhost.attacker.com/apiv1`, whose host differs from both
loopback names, yet the request is issued with TLS verification disabled
(`verify = false`), because the code tests substring membership in the URL
rather than host equality. -/
theorem C6_counterexample :
    (API.query "Get" []
        ⟨some ⟨.str "u", .str "sid", .str "db", .str "localhost.attacker.com",
          .null⟩, 0⟩
        ⟨[resultBody (.str "R")], [], []⟩).2.2.requests =
      [⟨"https://localhost.attacker.com/apiv1", false, "Get", []⟩] ∧
    urlparseBaseUrl "https://localhost.attacker.com/apiv1" =
      "localhost.attacker.com" ∧
    ("localhost.attacker.com" : String) ≠ "localhost" ∧
    ("localhost.attacker.com" : String) ≠ "127.0.0.1" :=
  ⟨rfl, by decide, by decide, by decide⟩

/-- C6 amended: the TLS verification flag on every issued request is
computed from the full URL: verification is disabled if and only if the URL
contains `127.0.0.1` or `localhost` as a *substring* (so loopback hosts do
disable it, but so does any host merely containing those strings). -/
theorem C6_verify_substring
    (m : String) (ps : Dict) (st : ApiState) (c : Credentials)
    (hc : st.credentials = some c) (srv : String)
    (hsrv : c.server = .str srv) (hs : srv ≠ "")
    (w : World) (d : JsonValue) (rest : List JsonValue)
    (hw : w.script = d :: rest) :
    (API.query m ps st w).2.2.requests =
      w.requests ++ [⟨apiUrl srv, isLiveUrl (apiUrl srv), m, ps⟩] ∧
    (isLiveUrl (apiUrl srv) = false ↔
      (strContains (apiUrl srv) "127.0.0.1" = true ∨
       strContains (apiUrl srv) "localhost" = true)) := by
  constructor
  · rw [query_eq m ps st c hc srv hsrv hs w d rest hw]
  · unfold isLiveUrl
    cases h1 : strContains (apiUrl srv) "127.0.0.1" <;>
      cases h2 : strContains (apiUrl srv) "localhost" <;> simp

/-- C6 witness: a plain production host keeps verification enabled; a bare
`localhost` host disables it. -/
theorem C6_verify_substring_witness :
    (isLiveUrl (apiUrl "my.geotab.com") = false ↔
      (strContains (apiUrl "my.geotab.com") "127.0.0.1" = true ∨
       strContains (apiUrl "my.geotab.com") "localhost" = true)) ∧
    isLiveUrl (apiUrl "my.geotab.com") = true ∧
    isLiveUrl (apiUrl "localhost") = false :=
  ⟨(C6_verify_substring "Get" []
      ⟨some ⟨.str "u", .str "sid", .str "db", .str "my.geotab.com", .null⟩, 0⟩
      ⟨.str "u", .str "sid", .str "db", .str "my.geotab.com", .null⟩ rfl
      "my.geotab.com" rfl (by decide)
      ⟨[resultBody (.str "R")], [], []⟩ (resultBody (.str "R")) [] rfl).2,
   by decide, by decide⟩

/-- C7 counterexample: constructing a client with the *empty string* as
username and a password present succeeds — it does not fail with a
construction error, because the check is `username is None`, which an empty
string does not satisfy. -/
theorem C7_counterexample :
    (API.init (.str "") (.str "pw") .null .null (.str "my.geotab.com")
        ⟨[], [], []⟩).1 =
      .ok ⟨some ⟨.str "", .null, .null, .str "my.geotab.com", .str "pw"⟩, 0⟩ ∧
    (∀ e, (API.init (.str "") (.str "pw") .null .null (.str "my.geotab.com")
        ⟨[], [], []⟩).1 ≠ .error e) :=
  ⟨rfl, fun _ h => Except.noConfusion h⟩

/-- C7 amended: construction fails with an error for a `None` username (in
every password/session combination), and for password and session token
both `None`; any non-`None` username — including the empty string — with a
password or session token present is accepted. -/
theorem C7_construction_checks :
    (∀ p d s srv w, (API.init .null p d s srv w).1 =
        .error (.genericError "username cannot be None")) ∧
    (∀ u d srv w, u.isNull = false →
        (API.init u .null d .null srv w).1 =
        .error (.genericError "password and session_id must not both be None")) ∧
    (∀ u p d s srv w, u.isNull = false →
        (p.isNull = false ∨ s.isNull = false) →
        (API.init u p d s srv w).1 = .ok ⟨some ⟨u, s, d, srv, p⟩, 0⟩) := by
  refine ⟨?_, ?_, ?_⟩
  · intro p d s srv w
    rfl
  · intro u d srv w hu
    simp [API.init, hu, show JsonValue.null.isNull = true from rfl]
  · intro u p d s srv w hu hps
    rcases hps with hp | hs
    · simp [API.init, hu, hp]
    · simp [API.init, hu, hs]

/-- C7 witness: the empty-username acceptance at a concrete input. -/
theorem C7_construction_checks_witness :
    (API.init (.str "") (.str "pw") .null .null (.str "my.geotab.com")
        ⟨[], [], []⟩).1 =
      .ok ⟨some ⟨.str "", .null, .null, .str "my.geotab.com", .str "pw"⟩, 0⟩ :=
  C7_construction_checks.2.2 (.str "") (.str "pw") .null .null
    (.str "my.geotab.com") ⟨[], [], []⟩ rfl (Or.inl rfl)

theorem prepParams_calls (c : Credentials) (v : JsonValue) :
    dlookup (prepParams c .null [("calls", v)]) "calls" = some v := by
  unfold prepParams
  by_cases hsid : truthy c.session_id = true
  · simp [hsid, show truthy JsonValue.null = false from rfl,
          show dmem [("calls", v)] "credentials" = false from rfl,
          dlookup_dset_ne [("calls", v)] "credentials" c.get_param "calls"
            (by decide),
          dlookup]
  · simp [Bool.eq_false_iff.mpr hsid,
          show truthy JsonValue.null = false from rfl, dlookup]

/-- C8: `multi_call` forwards the whole ordered sequence of
(method, params) pairs as a single `ExecuteMultiCall` invocation: with a
successful response exactly one HTTP request is issued, its method is
`ExecuteMultiCall`, and its `calls` parameter is the list
`[{method, params}, ...]` formatted from the input pairs in input order
(`List.map` preserves order); the decoded aggregate result is returned. -/
theorem C8_multi_call
    (calls : List (JsonValue × JsonValue)) (c : Credentials) (rc : Nat)
    (srv : String) (hsrv : c.server = .str srv) (hs : srv ≠ "")
    (w : World) (r : JsonValue) (rest : List JsonValue)
    (hw : w.script = resultBody r :: rest) (hr : r.isNull = false) :
    ∃ req, (API.multi_call calls ⟨some c, rc⟩ w).2.2.requests =
        w.requests ++ [req] ∧
      req.method = "ExecuteMultiCall" ∧
      dlookup req.params "calls" =
        some (.arr (calls.map fun cl =>
          JsonValue.obj [("method", cl.1), ("params", cl.2)])) ∧
      (API.multi_call calls ⟨some c, rc⟩ w).1 = .ok r := by
  have hm : API.multi_call calls ⟨some c, rc⟩ w =
      API.callFuel (1 + 1) (some "ExecuteMultiCall") .null
        [("calls", .arr (calls.map fun cl =>
          JsonValue.obj [("method", cl.1), ("params", cl.2)]))]
        ⟨some c, rc⟩ w := rfl
  have h := callFuel_ok_result 1 "ExecuteMultiCall" .null
    [("calls", .arr (calls.map fun cl =>
      JsonValue.obj [("method", cl.1), ("params", cl.2)]))]
    c rc srv hsrv hs w (resultBody r) rest hw r (interpretBody_resultBody r) hr
  refine ⟨⟨apiUrl srv, isLiveUrl (apiUrl srv), "ExecuteMultiCall",
           prepParams c .null [("calls", .arr (calls.map fun cl =>
             JsonValue.obj [("method", cl.1), ("params", cl.2)]))]⟩,
          ?_, rfl, ?_, ?_⟩
  · rw [hm, h]
    simp [afterRequest]
  · exact prepParams_calls c _
  · rw [hm, h]

/-- C8 witness: a two-element multi-call at concrete inputs. -/
theorem C8_multi_call_witness :
    ∃ req, (API.multi_call
        [(.str "Get", .obj [("typeName", .str "Trip")]),
         (.str "Get", .obj [("typeName", .str "Device")])]
        ⟨some ⟨.str "u", .str "sid", .str "db", .str "my.geotab.com", .null⟩, 0⟩
        ⟨[resultBody (.arr [.str "r1", .str "r2"])], [], []⟩).2.2.requests =
        ([] : List Request) ++ [req] ∧
      req.method = "ExecuteMultiCall" ∧
      dlookup req.params "calls" =
        some (.arr ([(JsonValue.str "Get", JsonValue.obj [("typeName", .str "Trip")]),
                     (JsonValue.str "Get", JsonValue.obj [("typeName", .str "Device")])].map
          fun cl => JsonValue.obj [("method", cl.1), ("params", cl.2)])) ∧
      (API.multi_call
        [(.str "Get", .obj [("typeName", .str "Trip")]),
         (.str "Get", .obj [("typeName", .str "Device")])]
        ⟨some ⟨.str "u", .str "sid", .str "db", .str "my.geotab.com", .null⟩, 0⟩
        ⟨[resultBody (.arr [.str "r1", .str "r2"])], [], []⟩).1 =
        .ok (.arr [.str "r1", .str "r2"]) :=
  C8_multi_call
    [(.str "Get", .obj [("typeName", .str "Trip")]),
     (.str "Get", .obj [("typeName", .str "Device")])]
    ⟨.str "u", .str "sid", .str "db", .str "my.geotab.com", .null⟩ 0
    "my.geotab.com" rfl (by decide)
    ⟨[resultBody (.arr [.str "r1", .str "r2"])], [], []⟩
    (.arr [.str "r1", .str "r2"]) [] rfl rfl

/-- C9 counterexample: a client whose held credentials have a falsy server.
A plain query mutates the `server` field of the existing `Credentials`
instance in place (to the default host) — the held credentials change while
the log of `Credentials` constructions stays empty, so the change is not a
replacement by a newly constructed instance. -/
theorem C9_counterexample :
    API.query "Get" []
        ⟨some ⟨.str "u", .str "sid", .str "db", .null, .null⟩, 0⟩
        ⟨[resultBody (.str "R")], [], []⟩ =
      (.ok (.str "R"),
       ⟨some ⟨.str "u", .str "sid", .str "db", .str "my.geotab.com", .null⟩, 0⟩,
       ⟨[], [⟨"https://my.geotab.com/apiv1", true, "Get", []⟩], []⟩) ∧
    (⟨.str "u", .str "sid", .str "db", .null, .null⟩ : Credentials) ≠
      ⟨.str "u", .str "sid", .str "db", .str "my.geotab.com", .null⟩ := by
  refine ⟨rfl, ?_⟩
  intro h
  have hs := congrArg Credentials.server h
  exact JsonValue.noConfusion hs

/-- C9 amended: across every operation, the held credentials are either
left unchanged, subjected to the single in-place mutation the code performs
(`_get_api_url` writing the default server host into the existing instance
when its server is falsy), or replaced wholesale by an instance freshly
constructed during the operation (successful authentication); `dcred` is
the operation's log of `Credentials` constructions. -/
theorem C9_credentials_evolution :
    (∀ m ps st w, ∃ dcred,
       (API.query m ps st w).2.2.newCredentials = w.newCredentials ++ dcred ∧
       CredsEvolve st.credentials dcred (API.query m ps st w).2.1.credentials) ∧
    (∀ st w, ∃ dcred,
       (API.authenticate st w).2.2.newCredentials = w.newCredentials ++ dcred ∧
       CredsEvolve st.credentials dcred
         (API.authenticate st w).2.1.credentials) ∧
    (∀ fuel mo tn ps st w, ∃ dcred,
       (API.callFuel fuel mo tn ps st w).2.2.newCredentials =
         w.newCredentials ++ dcred ∧
       CredsEvolve st.credentials dcred
         (API.callFuel fuel mo tn ps st w).2.1.credentials) := by
  refine ⟨?_, ?_, ?_⟩
  · intro m ps st w
    obtain ⟨-, hnc, -, hcred⟩ := query_shape m ps st w
    exact ⟨[], by simp [hnc], hcred⟩
  · intro st w
    obtain ⟨dcred, -, hnc, -, hcred⟩ := authenticate_shape st w
    exact ⟨dcred, hnc, hcred⟩
  · intro fuel mo tn ps st w
    obtain ⟨dcred, hnc, -, hcred⟩ := callFuel_shape fuel mo tn ps st w
    exact ⟨dcred, hnc, hcred⟩

/-- C10: a successful `authenticate()` installs a freshly built
`Credentials` whose password is `None`: the new instance is constructed
only from the response's `userName`, `sessionId` and `database` plus the
resolved server host — the original password is discarded from the client
state. -/
theorem C10_authenticate_discards_password
    (c : Credentials) (cnt : Nat) (srv : String)
    (hsrv : c.server = .str srv) (hs : srv ≠ "")
    (w : World) (kvs : Dict) (rest : List JsonValue)
    (hw : w.script = .obj kvs :: rest) (hkvs : kvs ≠ [])
    (hne : dmem kvs "error" = false) (hnr : dmem kvs "result" = false)
    (pth : JsonValue) (hp : dlookup kvs "path" = some pth)
    (cjk : Dict) (hcj : dlookup kvs "credentials" = some (.obj cjk))
    (u s d : JsonValue)
    (hu : dlookup cjk "userName" = some u)
    (hsid : dlookup cjk "sessionId" = some s)
    (hdb : dlookup cjk "database" = some d) :
    ∃ newc : Credentials,
      (API.authenticate ⟨some c, cnt⟩ w).1 = .ok (some newc) ∧
      (API.authenticate ⟨some c, cnt⟩ w).2.1.credentials = some newc ∧
      newc.password = .null ∧ newc.username = u ∧ newc.session_id = s ∧
      newc.database = d ∧ newc.server = resolveServer pth (.str srv) := by
  refine ⟨⟨u, s, d, resolveServer pth (.str srv), .null⟩, ?_, ?_, rfl, rfl,
          rfl, rfl, rfl⟩
  · rw [authenticate_success c cnt srv hsrv hs w kvs rest hw hkvs hne hnr
          pth hp cjk hcj u s d hu hsid hdb]
  · rw [authenticate_success c cnt srv hsrv hs w kvs rest hw hkvs hne hnr
          pth hp cjk hcj u s d hu hsid hdb]

/-- C10 witness: a concrete successful authentication (server moved to
`my2.geotab.com`); the installed credentials carry a `None` password. -/
theorem C10_authenticate_discards_password_witness :
    ∃ newc : Credentials,
      (API.authenticate
          ⟨some ⟨.str "u", .null, .str "db", .str "my.geotab.com", .str "pw"⟩, 0⟩
          ⟨[.obj [("path", .str "my2.geotab.com"),
                  ("credentials", .obj [("userName", .str "u"),
                                        ("sessionId", .str "sid"),
                                        ("database", .str "db")])]],
           [], []⟩).1 = .ok (some newc) ∧
      (API.authenticate
          ⟨some ⟨.str "u", .null, .str "db", .str "my.geotab.com", .str "pw"⟩, 0⟩
          ⟨[.obj [("path", .str "my2.geotab.com"),
                  ("credentials", .obj [("userName", .str "u"),
                                        ("sessionId", .str "sid"),
                                        ("database", .str "db")])]],
           [], []⟩).2.1.credentials = some newc ∧
      newc.password = .null ∧ newc.username = .str "u" ∧
      newc.session_id = .str "sid" ∧ newc.database = .str "db" ∧
      newc.server = resolveServer (.str "my2.geotab.com")
        (.str "my.geotab.com") :=
  C10_authenticate_discards_password
    ⟨.str "u", .null, .str "db", .str "my.geotab.com", .str "pw"⟩ 0
    "my.geotab.com" rfl (by decide)
    ⟨[.obj [("path", .str "my2.geotab.com"),
            ("credentials", .obj [("userName", .str "u"),
                                  ("sessionId", .str "sid"),
                                  ("database", .str "db")])]], [], []⟩
    [("path", .str "my2.geotab.com"),
     ("credentials", .obj [("userName", .str "u"), ("sessionId", .str "sid"),
                           ("database", .str "db")])]
    [] rfl (by simp) rfl rfl (.str "my2.geotab.com") rfl
    [("userName", .str "u"), ("sessionId", .str "sid"),
     ("database", .str "db")]
    rfl (.str "u") (.str "sid") (.str "db") rfl rfl rfl


theorem callFuel_count_ne_zero_fuel (f₁ f₂ : Nat) (mo : Option String)
    (tn : JsonValue) (ps : Dict) (st : ApiState) (w : World)
    (hcnt : st.reauthorize_count ≠ 0) :
    API.callFuel (f₁ + 1) mo tn ps st w = API.callFuel (f₂ + 1) mo tn ps st w := by
  cases mo with
  | none => rfl
  | some m =>
    obtain ⟨sc, rc⟩ := st
    cases sc with
    | none => rfl
    | some c =>
      rw [callFuel_someCreds, callFuel_someCreds]
      rcases hqe : API.query m (prepParams c tn ps) ⟨some c, rc⟩ w
        with ⟨res, st₁, w₁⟩
      have hc1 := (query_shape m (prepParams c tn ps) ⟨some c, rc⟩ w).1
      rw [hqe] at hc1
      dsimp only at hc1
      cases res with
      | ok result => rfl
      | error e =>
        cases e with
        | mgError nm mg stk fl =>
            have hb : (st₁.reauthorize_count == 0) = false := by
              simp only [hc1]
              simpa using hcnt
            have hg : (pyEqStr nm "InvalidUserException" &&
                st₁.reauthorize_count == 0) = false := by
              simp [hb]
            simp only [hg]
            rfl
        | authError u d s => rfl
        | genericError msg => rfl
        | typeOrKeyError => rfl
        | transport => rfl

/-- Adequacy of the fuel bound: the retry recursion in `call` reaches depth
at most 1 (the guard `_reauthorize_count == 0` fails on the retried
attempt), so every fuel of at least 2 computes the same result — `call`
(= `callFuel 2`) is the exact semantics of the unbounded Python
recursion. -/
theorem callFuel_fuel_indep (f : Nat) (mo : Option String) (tn : JsonValue)
    (ps : Dict) (st : ApiState) (w : World) :
    API.callFuel (f + 2) mo tn ps st w = API.call mo tn ps st w := by
  show API.callFuel ((f + 1) + 1) mo tn ps st w =
    API.callFuel (1 + 1) mo tn ps st w
  cases mo with
  | none => rfl
  | some m =>
    obtain ⟨sc, rc⟩ := st
    cases sc with
    | none => rfl
    | some c =>
      rw [callFuel_someCreds, callFuel_someCreds]
      rcases hqe : API.query m (prepParams c tn ps) ⟨some c, rc⟩ w
        with ⟨res, st₁, w₁⟩
      cases res with
      | ok result => rfl
      | error e =>
        cases e with
        | mgError nm mg stk fl =>
            by_cases hg : (pyEqStr nm "InvalidUserException" &&
                st₁.reauthorize_count == 0) = true
            · simp only [hg, if_true]
              rcases hae : API.authenticate
                  { st₁ with reauthorize_count := st₁.reauthorize_count + 1 } w₁
                with ⟨ares, st₂, w₂⟩
              cases ares with
              | error e2 => rfl
              | ok r0 =>
                  have hcz : st₁.reauthorize_count = 0 := by
                    simp only [Bool.and_eq_true, beq_iff_eq] at hg
                    exact hg.2
                  have ha := authenticate_shape
                    { st₁ with reauthorize_count := st₁.reauthorize_count + 1 } w₁
                  rw [hae] at ha
                  obtain ⟨-, hacnt, -, -, -⟩ := ha
                  dsimp only at hacnt
                  have h2 : st₂.reauthorize_count ≠ 0 := by
                    rw [hacnt, hcz]
                    simp
                  exact callFuel_count_ne_zero_fuel f 0 (some m)
                    (.obj (prepParams c tn ps)) [] st₂ w₂ h2
            · simp only [Bool.eq_false_iff.mpr hg]
              rfl
        | authError u d s => rfl
        | genericError msg => rfl
        | typeOrKeyError => rfl
        | transport => rfl

end MyGeotab
